import Mathlib

/-!
Verification development for the ProClubs Discord bot (Python sources under `src/`).

The development shallowly embeds the polling-and-deduplication pipeline of
`src/bot_new.py` (`ProClubsBot.poll_once_all_guilds`), the EA-API client
resilience logic of `src/utils/ea_api.py` (`fetch_json`, `fetch_club_info`),
the milestone evaluator of `src/milestones.py`, the streak evaluator of
`src/achievements.py` (`check_streak_achievements`), the monthly/playoff
accumulators of `src/monthly.py` / `src/database.py`, and the relevant
persistence operations of `src/database.py`.

Python dictionaries coming from EA's JSON API are modelled by `EAVal` /
`Dict` below, together with the handful of Python primitives the code uses
on them (`dict.get` with and without a default, truthiness, `str(...)`,
`int(... or 0)`).  External effects (HTTP fetches, Discord channel sends,
SQLite writes) are modelled by explicit environment records carrying each
call's outcome, so that one poll cycle becomes a pure function from
(guild configuration, environment) to an outcome record.
-/

namespace ProClubs

/-! ## Python/JSON value model -/

/-- A JSON-ish Python value as handled by the bot: `None`, strings, ints,
booleans, and string-keyed dictionaries.  (Floats are not needed by any of
the verified paths; ratings are modelled as integers embedded in `nat`.) -/
inductive EAVal where
  | none : EAVal
  | str : String → EAVal
  | nat : Nat → EAVal
  | bool : Bool → EAVal
  | dict : List (String × EAVal) → EAVal
deriving Repr, Inhabited

/-- A Python dict with string keys, as an association list (first binding wins,
mirroring unique keys of a Python dict). -/
abbrev Dict := List (String × EAVal)

/-- Raw key lookup in a dict: `some v` when the key is present. -/
def dlookup (d : Dict) (k : String) : Option EAVal :=
  match d with
  | [] => Option.none
  | (k2, v) :: rest => if k2 = k then some v else dlookup rest k

/-- Python `d.get(k)`: `None` when the key is absent. -/
def pyGet (d : Dict) (k : String) : EAVal :=
  (dlookup d k).getD EAVal.none

/-- Python `d.get(k, default)`: the default is used only when the key is
absent; a key present with value `None` still yields `None`. -/
def pyGetD (d : Dict) (k : String) (dflt : EAVal) : EAVal :=
  (dlookup d k).getD dflt

/-- Python truthiness of an `EAVal` (`if not x`, `x or 0`, ...). -/
def truthy : EAVal → Bool
  | .none => false
  | .str s => s ≠ ""
  | .nat n => n ≠ 0
  | .bool b => b
  | .dict d => !d.isEmpty

/-- Placeholder for Python's `str()` of a dict value; no verified code path
stringifies a dict, so the exact repr text is irrelevant to every theorem. -/
def pyDictRepr : String := "<dict>"

/-- Python `str(x)` for the values that reach string formatting in the bot. -/
def pyStr : EAVal → String
  | .none => "None"
  | .str s => s
  | .nat n => toString n
  | .bool b => if b then "True" else "False"
  | .dict _ => pyDictRepr

/-- View an `EAVal` as a dict, when it is one (models Python code that calls
`.get`/`.keys` on the value and would raise `AttributeError` otherwise). -/
def asDict : EAVal → Option Dict
  | .dict d => some d
  | _ => Option.none

/-- Python `int(v or 0)` as used on EA stat fields: falsy values become `0`,
ints pass through, numeric strings are parsed. -/
def pyIntOr0 (v : EAVal) : Nat :=
  if truthy v then
    match v with
    | .nat n => n
    | .str s => (s.toNat?).getD 0
    | _ => 0
  else 0

/-! ## Match-identity extraction (`src/bot_new.py`, lines 246-271)

`poll_once_all_guilds` Step 3 turns an inconsistently-shaped EA match record
into a deduplication key:

```python
match_id = match.get("matchJson")
if isinstance(match_id, str) and '"matchId":"' in match_id:
    try:
        match_id = re.search(r'"matchId":"(\d+)"', match_id).group(1)
    except Exception:
        match_id = None
elif isinstance(match_id, dict):
    match_id = match_id.get("matchId")
match_id = match.get("matchId", match_id)
if not match_id:
    ... composite from timestamp and the two clubs' scores ...
```
-/

/-- The literal needle `"matchId":"` searched for by the `in` test and the
regex (as a character list). -/
def matchIdNeedle : List Char := "\"matchId\":\"".data

/-- Does `pat` occur as a contiguous sublist of `hay`?  Models Python's
`pat in hay` on strings. -/
def listHasSub (hay pat : List Char) : Bool :=
  match hay with
  | [] => pat.isEmpty
  | _ :: rest => pat.isPrefixOf hay || listHasSub rest pat

/-- Longest leading run of ASCII digits, and the remainder. -/
def takeDigits : List Char → List Char × List Char
  | [] => ([], [])
  | c :: cs =>
      if c.isDigit then
        let p := takeDigits cs
        (c :: p.1, p.2)
      else ([], c :: cs)

/-- Try to match the regex `"matchId":"(\d+)"` at the head of `cs`,
returning the captured digit group. -/
def matchIdAt (cs : List Char) : Option String :=
  if matchIdNeedle.isPrefixOf cs then
    match takeDigits (cs.drop matchIdNeedle.length) with
    | ([], _) => Option.none
    | (ds, '"' :: _) => some (String.mk ds)
    | _ => Option.none
  else Option.none

/-- `re.search(r'"matchId":"(\d+)"', s).group(1)`: leftmost match wins. -/
def searchMatchIdAux : List Char → Option String
  | [] => Option.none
  | c :: cs =>
      match matchIdAt (c :: cs) with
      | some r => some r
      | Option.none => searchMatchIdAux cs

/-- Regex extraction of an embedded match id from a string field. -/
def searchMatchId (s : String) : Option String :=
  searchMatchIdAux s.data

/-- The composite fallback id `f"{timestamp}:{our_score}-{opp_score}"`
(`src/bot_new.py` lines 262-271).  Returns `Except.error ()` where the
Python would raise (a truthy non-dict where `.get` is called). -/
def composite_match_id (m : Dict) (clubIdStr : String) : Except Unit String :=
  match asDict (pyGetD m "clubs" (.dict [])) with
  | Option.none => .error ()
  | some clubs =>
    let ourClubV := pyGetD clubs clubIdStr (.dict [])
    let oppIds := (clubs.map (fun p => p.1)).filter (fun cid => cid ≠ clubIdStr)
    let oppClubV :=
      match oppIds.head? with
      | some cid => pyGetD clubs cid (.dict [])
      | Option.none => .dict []
    match asDict ourClubV, asDict oppClubV with
    | some ourClub, some oppClub =>
        .ok (pyStr (pyGetD m "timestamp" (.nat 0)) ++ ":" ++
             pyStr (pyGetD ourClub "score" (.str "?")) ++ "-" ++
             pyStr (pyGetD oppClub "score" (.str "?")))
    | _, _ => .error ()

/-- The value of `match_id` after the `matchJson` branch of Step 3 (the
`if isinstance(str)/elif isinstance(dict)` block), before the
`match.get("matchId", match_id)` overwrite. -/
def json_sibling_id (m : Dict) : EAVal :=
  match pyGet m "matchJson" with
  | .str s =>
      if listHasSub s.data matchIdNeedle then
        match searchMatchId s with
        | some ds => EAVal.str ds
        | Option.none => EAVal.none
      else .str s
  | .dict d => pyGet d "matchId"
  | v => v

/-- Step 3 of `poll_once_all_guilds`: the deduplication identity of a fetched
match record, as the string the bot later compares and stores
(`str(match_id)`).  `match.get("matchId", match_id)` keeps the direct field
whenever the key is present, else the `matchJson`-derived value; a falsy
result falls to the composite. -/
def extract_match_id (m : Dict) (clubIdStr : String) : Except Unit String :=
  if truthy (pyGetD m "matchId" (json_sibling_id m)) then
    Except.ok (pyStr (pyGetD m "matchId" (json_sibling_id m)))
  else composite_match_id m clubIdStr

/-! ## Spec-side identity chain (spec §4.2)

A second definition written from the specification's words, for comparison
with `extract_match_id`: "Resolution order, first success wins:
1. A direct identifier field on the record.
2. A regex/structural extraction of an identifier embedded inside a
   JSON-as-string sibling field.
3. A synthesized composite of (timestamp, scoreA, scoreB) when no explicit
   identifier is present anywhere." -/

/-- Spec step 1: a direct identifier field on the record (success means a
usable, non-empty identifier). -/
def directId_spec (m : Dict) : Option String :=
  match dlookup m "matchId" with
  | some v => if truthy v then some (pyStr v) else Option.none
  | Option.none => Option.none

/-- Spec step 2: extraction of a `"matchId":"<digits>"` value embedded in the
JSON-as-string sibling field. -/
def embeddedId_spec (m : Dict) : Option String :=
  match pyGet m "matchJson" with
  | .str s => searchMatchId s
  | _ => Option.none

/-- Spec §4.2 `identityOf`: ordered chain of extraction strategies, first
success wins, with the composite as final fallback. -/
def identityOf_spec (m : Dict) (clubIdStr : String) : Except Unit String :=
  match directId_spec m with
  | some i => Except.ok i
  | Option.none =>
    match embeddedId_spec m with
    | some i => Except.ok i
    | Option.none => composite_match_id m clubIdStr

/-! ## EA API client (`src/utils/ea_api.py`)

`fetch_json` (lines 330-411) retries a GET up to `max_attempts = 3` times.
Every failure class is retried while budget remains; once the budget is
exhausted, the *last* exception decides what is raised: HTTP 403 becomes
`EAApiForbiddenError(path)`, everything else a generic `RuntimeError`.
An attempt's outcome is modelled by `AttemptResult`; the network is an
oracle mapping the attempt number to its outcome. -/

/-- Outcome of one HTTP attempt inside `fetch_json`. -/
inductive AttemptResult where
  | ok (data : EAVal)
  | httpErr (status : Nat)
  | otherErr
deriving Repr, Inhabited

/-- Error surfaced by `fetch_json` after the attempt budget is exhausted:
`EAApiForbiddenError` carries the failing path, all else is generic. -/
inductive FetchErr where
  | forbidden (path : String)
  | generic
deriving Repr, DecidableEq, Inhabited

/-- End-of-loop classification in `fetch_json` (lines 406-411): if the last
exception is an HTTP error with status 403, raise the distinct forbidden
error carrying the path; otherwise a generic error. -/
def classifyLastExc (path : String) : AttemptResult → FetchErr
  | .httpErr status => if status = 403 then .forbidden path else .generic
  | _ => .generic

/-- The retry loop of `fetch_json`: return the first successful attempt's
data; when the listed attempts are exhausted, classify the last failure. -/
def fetchJsonLoop (path : String) (last : AttemptResult) :
    List AttemptResult → Except FetchErr EAVal
  | [] => Except.error (classifyLastExc path last)
  | a :: rest =>
      match a with
      | .ok d => Except.ok d
      | f => fetchJsonLoop path f rest

/-- `fetch_json(session, path, params, max_attempts=3)`: three attempts drawn
from the oracle, first success wins, final failure classified by status. -/
def fetch_json (path : String) (oracle : Nat → AttemptResult) :
    Except FetchErr EAVal :=
  fetchJsonLoop path .otherErr [oracle 1, oracle 2, oracle 3]

/-- The alternate platform tried by `fetch_club_info`
(`other = "common-gen4" if platform == "common-gen5" else "common-gen5"`). -/
def otherPlatform (platform : String) : String :=
  if platform = "common-gen5" then "common-gen4" else "common-gen5"

/-- `fetch_club_info(session, platform, club_id)` (lines 414-443): try the
requested platform; propagate `EAApiForbiddenError` immediately; on any
other failure retry exactly once on the alternate platform, whose outcome
(success or failure) is final.  `infoOracle p` is the `fetch_json` result of
`/clubs/info` with platform parameter `p`. -/
def fetch_club_info (platform : String)
    (infoOracle : String → Except FetchErr EAVal) :
    Except FetchErr (EAVal × String) :=
  match infoOracle platform with
  | .ok info => .ok (info, platform)
  | .error (.forbidden p) => .error (.forbidden p)
  | .error .generic =>
      match infoOracle (otherPlatform platform) with
      | .ok info => .ok (info, otherPlatform platform)
      | .error e => .error e

/-! ## Match-type classification (`src/playoffs.py`, lines 182-194) -/

/-- Does `pat` occur as a substring of `hay` (Python `pat in hay`)? -/
def strHasSub (hay pat : String) : Bool :=
  listHasSub hay.data pat.data

/-- Python `match_type.lower()` (character-wise lowercasing). -/
def strLower (s : String) : String :=
  String.mk (s.data.map Char.toLower)

/-- `is_playoff_match(match_type)`: substring test of the playoff indicator
list against the lowercased match type; falsy match type is `False`. -/
def is_playoff_match (matchType : String) : Bool :=
  if matchType.isEmpty then false
  else
    (["playoff", "playoffMatch", "cup", "tournament"]).any
      (fun ind => strHasSub (strLower matchType) ind)

/-! ## Per-guild poll step (`src/bot_new.py`, `poll_once_all_guilds`)

One guild's slice of a poll cycle is embedded as a pure function from the
guild's settings row and an environment record (the outcome of each
external call the code makes) to an outcome record.  Exceptions that the
Python lets escape to a per-guild handler are modelled with `Except`;
failures the code absorbs locally (`continue` after a channel/em bed/send
failure, the inline `try` around `set_last_match_id`) are plain booleans. -/

/-- One settings row of `get_all_guild_settings()`
(`guild_id, club_id, platform, channel_id, last_match_id, autopost`). -/
structure GuildRow where
  guildId : Nat
  clubId : EAVal
  platform : EAVal
  channelId : EAVal
  lastMatchId : Option String
  autopost : Nat
deriving Repr

/-- Environment of the league-match section (lines 213-449): outcome of each
external interaction during this guild's step. -/
structure LeagueEnv where
  /-- `fetch_club_info` result (info payload and used platform). -/
  clubInfo : Except FetchErr (EAVal × String)
  /-- `fetch_latest_match` result: `none` when EA reports no matches;
  a raise is `Except.error`. -/
  latest : Except FetchErr (Option (Dict × String))
  /-- Discord channel resolution succeeds (`get_channel`/`fetch_channel`). -/
  channelOk : Bool
  /-- `build_match_embed` succeeds. -/
  embedOk : Bool
  /-- `channel.send` succeeds. -/
  sendOk : Bool
  /-- `set_last_match_id` database write succeeds. -/
  cursorWriteOk : Bool
deriving Repr

/-- Observable outcome of the league-match section for one guild. -/
structure LeagueOut where
  /-- A fetched match was evaluated as new (log line "NEW match detected"). -/
  newDetected : Bool := false
  /-- The deduplication identity computed for the fetched match. -/
  matchIdStr : Option String := Option.none
  /-- `channel.send` was reached (channel resolved and embed built). -/
  deliveryAttempted : Bool := false
  /-- `channel.send` succeeded. -/
  posted : Bool := false
  /-- `set_last_match_id` committed this value. -/
  cursorWritten : Option String := Option.none
  /-- The match handed to `process_league_match_monthly`. -/
  monthlyMatch : Option Dict := Option.none
deriving Repr

/-- The league-match section of one guild's poll step
(`src/bot_new.py` lines 213-345, evaluator sub-block omitted: it is wrapped
in its own `try`/`except` at lines 349-440 and cannot affect these fields).
Mirrors the source's control flow: fetch club info, fetch latest match,
extract the identity, compare with the stored cursor, deliver, and only
after a successful send attempt the cursor write; monthly accumulation runs
after posting for non-playoff match types. -/
def leagueStep (row : GuildRow) (env : LeagueEnv) : Except FetchErr LeagueOut :=
  match env.clubInfo with
  | .error e => .error e
  | .ok _ =>
    match env.latest with
    | .error e => .error e
    | .ok Option.none => .ok {}
    | .ok (some (mtch, mtRaw)) =>
      let mt := if mtRaw.isEmpty then "league" else mtRaw
      match extract_match_id mtch (pyStr row.clubId) with
      | .error _ => .error .generic
      | .ok idStr =>
        let already :=
          match row.lastMatchId with
          | some s => decide (idStr = s)
          | Option.none => false
        if already then .ok { matchIdStr := some idStr }
        else if !env.channelOk then
          .ok { newDetected := true, matchIdStr := some idStr }
        else if !env.embedOk then
          .ok { newDetected := true, matchIdStr := some idStr }
        else if !env.sendOk then
          .ok { newDetected := true, matchIdStr := some idStr, deliveryAttempted := true }
        else
          .ok { newDetected := true, matchIdStr := some idStr, deliveryAttempted := true,
                posted := true,
                cursorWritten := if env.cursorWriteOk then some idStr else Option.none,
                monthlyMatch := if is_playoff_match mt then Option.none else some mtch }

/-- The playoff match identity
(`playoff_match.get("matchId", str(playoff_match.get("timestamp", 0)))`,
then `str(...)` for comparison and storage). -/
def playoff_match_id (pm : Dict) : String :=
  pyStr (pyGetD pm "matchId" (.str (pyStr (pyGetD pm "timestamp" (.nat 0)))))

/-- Environment of the playoff section (lines 451-501). -/
structure PlayoffEnv where
  /-- `get_settings(guild_id)`: `none` = no settings row; `some lp` = a row
  whose `last_playoff_match_id` is `lp`.  Modelled from the spec: the
  `last_playoff_match_id` column and its accessors are imported by
  `src/bot_new.py` but absent from `src/database.py`; spec §3 GuildConfig
  specifies a last-seen match id per match category (league, playoff). -/
  settings : Option (Option String)
  /-- `fetch_latest_playoff_match` result (it catches every exception and
  returns `(None, None)`, so no error case). -/
  latestPlayoff : Option (Dict × String)
  /-- Playoff channel resolution succeeds. -/
  poChannelOk : Bool
  /-- `fetch_club_info` inside the posting block. -/
  poClubInfo : Except FetchErr (EAVal × String)
  /-- `build_match_embed` succeeds. -/
  poEmbedOk : Bool
  /-- `po_channel.send` succeeds. -/
  poSendOk : Bool
  /-- `set_last_playoff_match_id` write succeeds.  Modelled from the spec
  (function absent from `src/database.py`): persists the playoff cursor. -/
  poCursorWriteOk : Bool
deriving Repr

/-- Observable outcome of the playoff section for one guild. -/
structure PlayoffOut where
  /-- A fetched playoff match was evaluated as new. -/
  poNewDetected : Bool := false
  /-- The playoff identity computed for the fetched playoff match. -/
  poIdStr : Option String := Option.none
  /-- The playoff embed was delivered. -/
  poPosted : Bool := false
  /-- `set_last_playoff_match_id` committed this value. -/
  poCursorWritten : Option String := Option.none
  /-- The match handed to `process_playoff_match`. -/
  playoffMatch : Option Dict := Option.none
deriving Repr

/-- The playoff section of one guild's poll step (lines 451-501).  The
posting sub-block sits in an inner `try` whose failures are only logged;
`set_last_playoff_match_id` runs after it unconditionally, and a raise
there escapes to the playoff section's handler. -/
def playoffStep (_row : GuildRow) (env : PlayoffEnv) : Except FetchErr PlayoffOut :=
  let lastPo : Option String :=
    match env.settings with
    | Option.none => Option.none
    | some lp => lp
  match env.latestPlayoff with
  | Option.none => .ok {}
  | some (pm, _pmt) =>
    let pid := playoff_match_id pm
    let isNew :=
      match lastPo with
      | Option.none => true
      | some l => decide (pid ≠ l)
    if !isNew then .ok { poIdStr := some pid }
    else
      let delivered :=
        env.poChannelOk && env.poClubInfo.isOk && env.poEmbedOk && env.poSendOk
      if !env.poCursorWriteOk then .error .generic
      else
        .ok { poNewDetected := true, poIdStr := some pid, poPosted := delivered,
              poCursorWritten := some pid, playoffMatch := some pm }

/-! ## Guild iteration and the poll cycle (`poll_once_all_guilds`, lines 169-507)

The loop body for one guild: entry guards (incomplete settings, autopost
off, 403 cooldown), then three independently guarded sections — league
match, playoff match, month rollover — each wrapped in its own
`try`/`except` so that nothing propagates out of the loop iteration.
The in-memory `self._ea_forbidden_until` map is the only state shared
between guilds within a cycle; it is modelled as a total function from
guild id to the forbidden-until timestamp (0 = absent, matching
`dict.get(guild_id, 0.0)`). -/

/-- `EA_FORBIDDEN_COOLDOWN_SECONDS` (`src/bot_new.py` line 125). -/
def EA_FORBIDDEN_COOLDOWN_SECONDS : Nat := 600

/-- The in-memory `_ea_forbidden_until` map. -/
abbrev Cooldown := Nat → Nat

/-- Point update of the cooldown map. -/
def setCool (c : Cooldown) (g v : Nat) : Cooldown :=
  fun x => if x = g then v else c x

/-- The cooldown bookkeeping attached to one caught section: an
`EAApiForbiddenError` sets the guild's forbidden-until timestamp, any other
outcome leaves the map untouched. -/
def coolUpdate {α : Type} (now g : Nat) (c : Cooldown) (r : Except FetchErr α) :
    Cooldown :=
  match r with
  | .error (.forbidden _) => setCool c g (now + EA_FORBIDDEN_COOLDOWN_SECONDS)
  | _ => c

/-- Environment for one guild's whole loop iteration. -/
structure GuildEnv where
  league : LeagueEnv
  playoff : PlayoffEnv
  /-- `check_month_rollover` outcome; any raise is caught and logged. -/
  rollover : Except FetchErr Unit
deriving Repr

/-- Result of one guild's loop iteration: which sections ran, their
outcomes, and which sections failed (caught and logged). -/
structure GuildResult where
  /-- The entry guards skipped this guild for the cycle. -/
  skipped : Bool := false
  leagueOut : Option LeagueOut := Option.none
  leagueErr : Option FetchErr := Option.none
  playoffOut : Option PlayoffOut := Option.none
  playoffErr : Option FetchErr := Option.none
  rolloverErr : Option FetchErr := Option.none
deriving Repr

/-- One guild's loop iteration (lines 190-507): entry guards, the cooldown
bookkeeping (`pop` after a successful club-info fetch, set after an
`EAApiForbiddenError`), and the three caught sections. -/
def guildIter (now : Nat) (cool : Cooldown) (row : GuildRow) (env : GuildEnv) :
    Cooldown × GuildResult :=
  if !truthy row.clubId || !truthy row.platform || !truthy row.channelId then
    (cool, { skipped := true })
  else if row.autopost ≠ 1 then
    (cool, { skipped := true })
  else if now < cool row.guildId then
    (cool, { skipped := true })
  else
    -- `self._ea_forbidden_until.pop(...)` runs right after `fetch_club_info`
    -- returns successfully (line 217).
    let cool1 := if env.league.clubInfo.isOk then setCool cool row.guildId 0 else cool
    let leagueRes := leagueStep row env.league
    let cool2 := coolUpdate now row.guildId cool1 leagueRes
    let playoffRes := playoffStep row env.playoff
    let cool3 := coolUpdate now row.guildId cool2 playoffRes
    (cool3,
      { leagueOut := leagueRes.toOption
        leagueErr := match leagueRes with | .error e => some e | _ => Option.none
        playoffOut := playoffRes.toOption
        playoffErr := match playoffRes with | .error e => some e | _ => Option.none
        rolloverErr := match env.rollover with | .error e => some e | _ => Option.none })

/-- The cycle body: sequentially process every configured guild, threading
only the cooldown map between guilds.  Total by construction — every
section failure is recorded in the guild's `GuildResult`, mirroring the
`try`/`except` blocks that keep exceptions inside the loop iteration. -/
def pollCycle (now : Nat) (cool : Cooldown) :
    List (GuildRow × GuildEnv) → Cooldown × List GuildResult
  | [] => (cool, [])
  | (row, env) :: rest =>
      let p := guildIter now cool row env
      let q := pollCycle now p.1 rest
      (q.1, p.2 :: q.2)

/-! ## Monthly accumulation (`src/monthly.py`, `src/database.py`)

`process_league_match_monthly` (lines 44-75 of `src/monthly.py`) assigns
the match to a calendar month from its own timestamp and feeds every
player block of the tracked club into `update_monthly_stats`.  The
`strftime` calendar conversion is abstracted as a `monthKey` parameter. -/

/-- One (player, period) row of the monthly stats table. -/
structure MonthlyRow where
  goals : Nat := 0
  assists : Nat := 0
  totalRating : Rat := 0
  matchesPlayed : Nat := 0
deriving Repr, DecidableEq

/-- The monthly stats store: (player name, month period) to row; the
all-zero row doubles as "no row yet", which coincides with the insert
branch of the accumulator. -/
abbrev MonthlyStore := String × String → MonthlyRow

/-- Modelled from the spec: `update_monthly_stats` is imported by
`src/monthly.py` but its definition is absent from `src/database.py`.
Spec §3 MonthlyStat: "incrementally accumulated
goals/assists/total-rating/matches-played for that period"; mirrors the
present `update_playoff_stats` accumulator (`src/database.py` 570-613),
which reads the row, adds the match's values, bumps matches-played by one,
and upserts. -/
def update_monthly_stats (st : MonthlyStore) (player period : String)
    (goals assists : Nat) (rating : Rat) : MonthlyStore :=
  fun k =>
    if k = (player, period) then
      let r := st (player, period)
      { goals := r.goals + goals
        assists := r.assists + assists
        totalRating := r.totalRating + rating
        matchesPlayed := r.matchesPlayed + 1 }
    else st k

/-- Python `float(v or 0)` on a rating field.  `EAVal` carries no float
constructor, so ratings are integral in the model; only the accumulation
structure matters to the theorems. -/
def pyFloatOr0 (v : EAVal) : Rat :=
  (pyIntOr0 v : Rat)

/-- `process_league_match_monthly(guild_id, match_data, club_id)`
(`src/monthly.py` 44-75) for a fixed guild: pick the month period from the
match's timestamp (falling back to the current period), then fold the
tracked club's player blocks into the accumulator.  The function wraps its
whole body in `try`/`except`, so a shape error leaves the store unchanged. -/
def process_league_match_monthly (monthKey : Nat → String) (nowPeriod : String)
    (st : MonthlyStore) (m : Dict) (clubIdStr : String) : MonthlyStore :=
  let ts := pyGet m "timestamp"
  let period := if truthy ts then monthKey (pyIntOr0 ts) else nowPeriod
  match asDict (pyGetD m "players" (.dict [])) with
  | Option.none => st
  | some playersD =>
    match asDict (pyGetD playersD clubIdStr (.dict [])) with
    | Option.none => st
    | some clubPlayers =>
        clubPlayers.foldl
          (fun acc p =>
            match p.2 with
            | .dict pd =>
                let pname := pyStr (pyGetD pd "playername" (.str "Unknown"))
                update_monthly_stats acc pname period
                  (pyIntOr0 (pyGetD pd "goals" (.nat 0)))
                  (pyIntOr0 (pyGetD pd "assists" (.nat 0)))
                  (pyFloatOr0 (pyGetD pd "rating" (.nat 0)))
            | _ => acc)
          st

/-- `update_playoff_stats(guild_id, player_name, playoff_period, goals,
assists, rating)` (`src/database.py` 570-613) for a fixed guild: identical
read-add-upsert accumulation (the derived `playoff_score` is recomputed on
read in `get_playoff_stats` and omitted from the stored row model). -/
def update_playoff_stats (st : MonthlyStore) (player period : String)
    (goals assists : Nat) (rating : Rat) : MonthlyStore :=
  update_monthly_stats st player period goals assists rating

/-! ## Multi-cycle league state (for the exactly-once accumulation claim)

Across poll cycles the persistent state relevant to the league path is the
guild's `last_match_id` cursor and the monthly store.  One cycle applies
`leagueStep` and commits its effects. -/

/-- Persistent state of the league path for one guild. -/
structure LeagueCycleState where
  lastMatchId : Option String
  monthly : MonthlyStore

/-- One poll cycle's effect on the league path's persistent state. -/
def leagueCycle (monthKey : Nat → String) (nowPeriod : String) (row : GuildRow)
    (st : LeagueCycleState) (env : LeagueEnv) : LeagueCycleState :=
  match leagueStep { row with lastMatchId := st.lastMatchId } env with
  | .error _ => st
  | .ok o =>
      { lastMatchId :=
          match o.cursorWritten with
          | some s => some s
          | Option.none => st.lastMatchId
        monthly :=
          match o.monthlyMatch with
          | some m => process_league_match_monthly monthKey nowPeriod st.monthly m (pyStr row.clubId)
          | Option.none => st.monthly }

/-- Run a list of poll cycles from an initial state. -/
def leagueTrace (monthKey : Nat → String) (nowPeriod : String) (row : GuildRow)
    (st : LeagueCycleState) : List LeagueEnv → LeagueCycleState
  | [] => st
  | env :: rest =>
      leagueTrace monthKey nowPeriod row (leagueCycle monthKey nowPeriod row st env) rest

/-- How the cursor alone evolves over one cycle. -/
def nextCursor (row : GuildRow) (c : Option String) (env : LeagueEnv) : Option String :=
  match leagueStep { row with lastMatchId := c } env with
  | .error _ => c
  | .ok o =>
      match o.cursorWritten with
      | some s => some s
      | Option.none => c

/-- Did this cycle feed the fetched match into the monthly accumulator? -/
def fedThisCycle (row : GuildRow) (c : Option String) (env : LeagueEnv) : Bool :=
  match leagueStep { row with lastMatchId := c } env with
  | .error _ => false
  | .ok o => o.monthlyMatch.isSome

/-- Number of cycles along a trace that feed the monthly accumulator. -/
def monthlyFeedCount (row : GuildRow) : Option String → List LeagueEnv → Nat
  | _, [] => 0
  | c, env :: rest =>
      (if fedThisCycle row c env then 1 else 0) +
        monthlyFeedCount row (nextCursor row c env) rest

/-! ## Milestones (`src/milestones.py`, `src/database.py`)

`check_milestones(guild_id, player_name, stats)` walks a fixed ascending
threshold list per stat category and emits every threshold the player's
current cumulative value has reached that is not yet recorded in
`player_milestones`.  The database lookups for one fixed (guild, player)
are abstracted as a predicate `announced : category → threshold → Bool`. -/

/-- `MILESTONE_THRESHOLDS` (`src/milestones.py` lines 12-17). -/
def MILESTONE_THRESHOLDS : String → List Nat
  | "goals" => [1, 10, 25, 50, 100, 250, 500]
  | "assists" => [1, 10, 25, 50, 100, 250, 500]
  | "matches" => [1, 10, 25, 50, 100, 250, 500]
  | "motm" => [1, 5, 10, 25, 50, 100]
  | _ => []

/-- One emitted milestone event
(`{"type": ..., "value": ..., "emoji": ..., "label": ...}`). -/
structure MilestoneEvent where
  mtype : String
  value : Nat
  emoji : String
  label : String
deriving Repr, DecidableEq

/-- One category's pass in `check_milestones`: in threshold-list order,
emit each threshold with `current ≥ threshold` that is not announced. -/
def checkCategory (announced : String → Nat → Bool) (cat : String)
    (current : Nat) (emoji label : String) : List MilestoneEvent :=
  (MILESTONE_THRESHOLDS cat).filterMap
    (fun t =>
      if current ≥ t ∧ !announced cat t then
        some { mtype := cat, value := t, emoji := emoji, label := label }
      else Option.none)

/-- The stat value `check_milestones` reads for each category
(`goals`, `assists`, `gamesPlayed`, `manOfTheMatch`, each as
`int(stats.get(field, 0) or 0)`). -/
def milestoneStat (stats : Dict) : String → Nat
  | "goals" => pyIntOr0 (pyGetD stats "goals" (.nat 0))
  | "assists" => pyIntOr0 (pyGetD stats "assists" (.nat 0))
  | "matches" => pyIntOr0 (pyGetD stats "gamesPlayed" (.nat 0))
  | "motm" => pyIntOr0 (pyGetD stats "manOfTheMatch" (.nat 0))
  | _ => 0

/-- `check_milestones` (`src/milestones.py` lines 20-51): the four category
passes concatenated in source order. -/
def check_milestones (announced : String → Nat → Bool) (stats : Dict) :
    List MilestoneEvent :=
  checkCategory announced "goals" (milestoneStat stats "goals") "⚽" "Goals" ++
  checkCategory announced "assists" (milestoneStat stats "assists") "🅰️" "Assists" ++
  checkCategory announced "matches" (milestoneStat stats "matches") "🎮" "Matches Played" ++
  checkCategory announced "motm" (milestoneStat stats "motm") "⭐" "Man of the Match"

/-- The `player_milestones` table content: recorded
(guild, player, milestone type, milestone value) keys. -/
abbrev MilestoneStore := List (Nat × String × String × Nat)

/-- `record_milestone` (`src/database.py` 302-318): `INSERT OR IGNORE` on
the primary key (guild_id, player_name, milestone_type, milestone_value). -/
def record_milestone (st : MilestoneStore) (g : Nat) (p mtype : String)
    (v : Nat) : MilestoneStore :=
  if (g, p, mtype, v) ∈ st then st else st ++ [(g, p, mtype, v)]

/-- `has_milestone_been_announced` (`src/database.py` 286-299): key lookup. -/
def has_milestone_been_announced (st : MilestoneStore) (g : Nat)
    (p mtype : String) (v : Nat) : Bool :=
  decide ((g, p, mtype, v) ∈ st)

/-! ## Streak achievements (`src/achievements.py`, `src/database.py`)

`get_player_match_history` (`src/database.py` 411-439) selects exactly
`match_id, goals, assists, clean_sheet, played_at` and returns them as
dicts in chronological order.  `check_streak_achievements`
(`src/achievements.py` 537-615) tests windows of those dicts; the
"fortress" and "draw_specialists" checks read a `result` key. -/

/-- One raw row of the `player_match_history` query in
`get_player_match_history` (newest first, as selected). -/
structure HistRow where
  matchId : String
  goals : Nat
  assists : Nat
  cleanSheet : Bool
  playedAt : String
deriving Repr, DecidableEq

/-- The dict built for one row (the five selected columns, lines 427-436). -/
def histRowToDict (r : HistRow) : Dict :=
  [("match_id", .str r.matchId),
   ("goals", .nat r.goals),
   ("assists", .nat r.assists),
   ("clean_sheet", .bool r.cleanSheet),
   ("played_at", .str r.playedAt)]

/-- `get_player_match_history`: rows ordered `played_at DESC` are reversed
into chronological order and shaped into dicts. -/
def get_player_match_history (rows : List HistRow) : List Dict :=
  (rows.reverse).map histRowToDict

/-- Python `m.get(k, 0) > 0` on a history entry. -/
def entryPos (m : Dict) (k : String) : Bool :=
  match pyGetD m k (.nat 0) with
  | .nat n => decide (0 < n)
  | _ => false

/-- Python `m.get(k, False)` truthiness on a history entry. -/
def entryFlag (m : Dict) (k : String) : Bool :=
  truthy (pyGetD m k (.bool false))

/-- Python `m.get(k) == s` on a history entry (comparison against a string
literal; any non-string value, including the `None` of a missing key,
compares unequal). -/
def entryStrEq (m : Dict) (k s : String) : Bool :=
  match pyGet m k with
  | .str t => decide (t = s)
  | _ => false

/-- Python `history[-n:]`. -/
def lastN (n : Nat) (xs : List Dict) : List Dict :=
  xs.drop (xs.length - n)

/-- `check_streak_achievements(guild_id, player_name, stats)`
(`src/achievements.py` 537-615) for a fixed (guild, player): emits the
achievement ids (metadata from `ACHIEVEMENTS` is presentation only).
`earned` abstracts `has_achievement_been_earned`. -/
def check_streak_achievements (earned : String → Bool)
    (history : List Dict) : List String :=
  if history.isEmpty then []
  else
    (if history.length ≥ 5 ∧ (lastN 5 history).all (fun m => entryPos m "goals") ∧
        !earned "on_fire" then ["on_fire"] else []) ++
    (if history.length ≥ 20 ∧ !earned "mr_reliable" then ["mr_reliable"] else []) ++
    (if history.length ≥ 5 ∧ (lastN 5 history).all (fun m => entryFlag m "clean_sheet") ∧
        !earned "clean_sheet_specialist" then ["clean_sheet_specialist"] else []) ++
    (if history.length ≥ 5 ∧ (lastN 5 history).all (fun m => entryPos m "assists") ∧
        !earned "assist_streak" then ["assist_streak"] else []) ++
    (if history.length ≥ 10 ∧
        (lastN 10 history).all (fun m => entryPos m "goals" || entryPos m "assists") ∧
        !earned "involvement" then ["involvement"] else []) ++
    (if history.length ≥ 5 ∧ (lastN 5 history).all (fun m => entryStrEq m "result" "W") ∧
        !earned "fortress" then ["fortress"] else []) ++
    (if history.length ≥ 3 ∧ (lastN 3 history).all (fun m => entryStrEq m "result" "D") ∧
        !earned "draw_specialists" then ["draw_specialists"] else [])

/-! ## Theorems -/

/-- An attempt outcome that is not a success. -/
def AttemptResult.isFail : AttemptResult → Bool
  | .ok _ => false
  | _ => true

/-- C6: when the attempt budget of 3 is exhausted, `fetch_json` surfaces the
distinct forbidden error carrying the failing path exactly when the final
failure is HTTP 403; any other final failure class yields the generic
error, never the forbidden one. -/
theorem fetch_json_forbidden_iff_final_403 (path : String)
    (oracle : Nat → AttemptResult)
    (h1 : (oracle 1).isFail = true) (h2 : (oracle 2).isFail = true)
    (h3 : (oracle 3).isFail = true) :
    (oracle 3 = .httpErr 403 →
        fetch_json path oracle = .error (.forbidden path)) ∧
    ((∀ s, oracle 3 = .httpErr s → s ≠ 403) →
        fetch_json path oracle = .error .generic) := by
  cases e1 : oracle 1 <;> rw [e1] at h1 <;> simp [AttemptResult.isFail] at h1 <;>
    cases e2 : oracle 2 <;> rw [e2] at h2 <;> simp [AttemptResult.isFail] at h2 <;>
    cases e3 : oracle 3 <;> rw [e3] at h3 <;> simp [AttemptResult.isFail] at h3 <;>
    constructor <;>
    simp_all [fetch_json, fetchJsonLoop, classifyLastExc] <;>
    intro h <;> simp_all

/-- Witness for C6: three 403 responses surface the forbidden error with the
path; three timeouts surface the generic error. -/
theorem fetch_json_forbidden_iff_final_403_witness :
    fetch_json "/members/stats" (fun _ => .httpErr 403) =
      .error (.forbidden "/members/stats") ∧
    fetch_json "/clubs/info" (fun _ => .otherErr) = .error .generic := by
  constructor
  · exact (fetch_json_forbidden_iff_final_403 "/members/stats"
      (fun _ => .httpErr 403) rfl rfl rfl).1 rfl
  · exact (fetch_json_forbidden_iff_final_403 "/clubs/info"
      (fun _ => .otherErr) rfl rfl rfl).2 (by intro s h; cases h)

/-- C7: `fetch_club_info` returns the used platform on success, retries
exactly once on the alternate platform value (`common-gen4` vs
`common-gen5`) after a non-forbidden failure, and propagates the forbidden
error immediately — for every behaviour of the alternate platform's call,
so the alternate is never consulted. -/
theorem fetch_club_info_platform_fallback (platform : String)
    (oracle : String → Except FetchErr EAVal) :
    (∀ info, oracle platform = .ok info →
        fetch_club_info platform oracle = .ok (info, platform)) ∧
    (∀ p, oracle platform = .error (.forbidden p) →
        fetch_club_info platform oracle = .error (.forbidden p)) ∧
    (oracle platform = .error .generic →
        (∀ info, oracle (otherPlatform platform) = .ok info →
            fetch_club_info platform oracle = .ok (info, otherPlatform platform)) ∧
        (∀ e, oracle (otherPlatform platform) = .error e →
            fetch_club_info platform oracle = .error e)) ∧
    otherPlatform "common-gen5" = "common-gen4" ∧
    otherPlatform "common-gen4" = "common-gen5" := by
  refine ⟨?_, ?_, ?_, by decide, by decide⟩
  · intro info h
    simp [fetch_club_info, h]
  · intro p h
    simp [fetch_club_info, h]
  · intro h
    constructor
    · intro info h2
      simp [fetch_club_info, h, h2]
    · intro e h2
      cases e <;> simp [fetch_club_info, h, h2]

/-- Witness for C7: a generic failure on gen5 falls back to gen4 and
returns the fallback platform; a forbidden failure propagates. -/
theorem fetch_club_info_platform_fallback_witness :
    fetch_club_info "common-gen5"
        (fun p => if p = "common-gen5" then .error .generic else .ok (.dict [])) =
      .ok (.dict [], "common-gen4") ∧
    fetch_club_info "common-gen5"
        (fun _ => .error (.forbidden "/clubs/info")) =
      .error (.forbidden "/clubs/info") := by
  constructor
  · exact (((fetch_club_info_platform_fallback "common-gen5"
      (fun p => if p = "common-gen5" then .error .generic else .ok (.dict []))).2.2.1
        (by rfl)).1 (.dict []) (by rfl))
  · exact (fetch_club_info_platform_fallback "common-gen5"
      (fun _ => .error (.forbidden "/clubs/info"))).2.1 "/clubs/info" rfl

/-- The dict built from a history row has no `result` key: the query in
`get_player_match_history` selects only
`match_id, goals, assists, clean_sheet, played_at`. -/
theorem pyGet_histRow_result (r : HistRow) :
    pyGet (histRowToDict r) "result" = EAVal.none := rfl

/-- `m.get("result") == s` is `False` on every history entry. -/
theorem entryStrEq_histRow_result (r : HistRow) (s : String) :
    entryStrEq (histRowToDict r) "result" s = false := by
  unfold entryStrEq
  rw [pyGet_histRow_result]

/-- Membership in a guarded singleton segment. -/
theorem mem_ite_list {α : Type} (a : α) (c : Prop) [Decidable c] (l : List α) :
    a ∈ (if c then l else []) ↔ c ∧ a ∈ l := by
  split <;> simp_all

/-- Any window over the history rows fails an `m.get("result") == s` test. -/
theorem lastN_result_all_false (rows : List HistRow) (s : String) (n : Nat)
    (hn : 0 < n) (hlen : n ≤ (get_player_match_history rows).length) :
    (lastN n (get_player_match_history rows)).all
      (fun m => entryStrEq m "result" s) = false := by
  set h := get_player_match_history rows with hh
  have hlennz : 0 < (lastN n h).length := by
    simp only [lastN, List.length_drop]
    omega
  obtain ⟨x, hx⟩ := List.exists_mem_of_ne_nil _ (List.ne_nil_of_length_pos hlennz)
  have hxh : x ∈ h := List.mem_of_mem_drop hx
  have hshape : ∃ a ∈ rows, histRowToDict a = x := by
    rw [hh] at hxh
    simpa [get_player_match_history, List.mem_map] using hxh
  obtain ⟨r, -, hr⟩ := hshape
  by_contra hall
  rw [Bool.not_eq_false, List.all_eq_true] at hall
  have := hall x hx
  rw [← hr, entryStrEq_histRow_result] at this
  cases this

/-- C10: for every stored match history and every announced-achievement
state, `check_streak_achievements` can emit neither "fortress" nor
"draw_specialists": the rows produced by `get_player_match_history` carry
no `result` key, so the `== "W"` / `== "D"` tests are false on every
window entry. -/
theorem streak_fortress_draw_never_emitted (rows : List HistRow)
    (earned : String → Bool) :
    "fortress" ∉ check_streak_achievements earned (get_player_match_history rows) ∧
    "draw_specialists" ∉
      check_streak_achievements earned (get_player_match_history rows) := by
  set h := get_player_match_history rows with hh
  constructor <;>
  · intro hmem
    unfold check_streak_achievements at hmem
    by_cases hE : h.isEmpty
    · simp [hE] at hmem
    · simp only [if_neg hE, List.mem_append, mem_ite_list, List.mem_singleton,
        List.mem_cons, List.not_mem_nil] at hmem
      rcases hmem with ((((((⟨h1, h2⟩ | ⟨h1, h2⟩) | ⟨h1, h2⟩) | ⟨h1, h2⟩) |
        ⟨h1, h2⟩) | ⟨h1, h2⟩) | ⟨h1, h2⟩) <;>
        first
        | exact absurd h2 (by decide)
        | (obtain ⟨hlen, hall, -⟩ := h1
           rw [hh] at hall
           rw [lastN_result_all_false rows _ _ (by omega) (by rw [← hh]; omega)]
             at hall
           cases hall)

/-- Membership characterization for one category pass of `check_milestones`. -/
theorem mem_checkCategory (announced : String → Nat → Bool) (cat : String)
    (current : Nat) (emoji label : String) (e : MilestoneEvent) :
    e ∈ checkCategory announced cat current emoji label ↔
      (e.mtype = cat ∧ e.emoji = emoji ∧ e.label = label ∧
       e.value ∈ MILESTONE_THRESHOLDS cat ∧ e.value ≤ current ∧
       announced cat e.value = false) := by
  simp only [checkCategory, List.mem_filterMap]
  constructor
  · rintro ⟨t, ht, hsome⟩
    split at hsome
    · rename_i hc
      obtain ⟨h1, h2⟩ := hc
      cases hsome
      simp_all
    · cases hsome
  · rintro ⟨h1, h2, h3, h4, h5, h6⟩
    refine ⟨e.value, h4, ?_⟩
    rw [if_pos ⟨h5, by simp [h6]⟩]
    cases e
    simp_all

/-- Membership characterization for `check_milestones`: an event is emitted
exactly when its category is one of the four tracked ones, its threshold
is on that category's list, the current stat has reached it, and it is not
recorded as announced. -/
theorem mem_check_milestones (announced : String → Nat → Bool) (stats : Dict)
    (e : MilestoneEvent) :
    e ∈ check_milestones announced stats ↔
      ((e.mtype = "goals" ∧ e.emoji = "⚽" ∧ e.label = "Goals") ∨
       (e.mtype = "assists" ∧ e.emoji = "🅰️" ∧ e.label = "Assists") ∨
       (e.mtype = "matches" ∧ e.emoji = "🎮" ∧ e.label = "Matches Played") ∨
       (e.mtype = "motm" ∧ e.emoji = "⭐" ∧ e.label = "Man of the Match")) ∧
      e.value ∈ MILESTONE_THRESHOLDS e.mtype ∧
      e.value ≤ milestoneStat stats e.mtype ∧
      announced e.mtype e.value = false := by
  simp only [check_milestones, List.mem_append, mem_checkCategory]
  constructor
  · rintro (((⟨h1, h⟩ | ⟨h1, h⟩) | ⟨h1, h⟩) | ⟨h1, h⟩) <;> rw [h1] <;>
      simp_all
  · rintro ⟨(⟨h1, h2, h3⟩ | ⟨h1, h2, h3⟩ | ⟨h1, h2, h3⟩ | ⟨h1, h2, h3⟩), h4, h5, h6⟩ <;>
      rw [h1] at h4 h5 h6 <;> simp_all

/-- C8: `check_milestones` emits exactly the set of (category, threshold)
pairs whose threshold is on the category's fixed list, is reached by the
player's current cumulative value, and is not yet recorded as announced —
all newly-crossed not-yet-announced thresholds, not just the highest. -/
theorem check_milestones_exact_set (announced : String → Nat → Bool)
    (stats : Dict) (cat : String) (t : Nat) :
    (∃ e ∈ check_milestones announced stats, e.mtype = cat ∧ e.value = t) ↔
      (t ∈ MILESTONE_THRESHOLDS cat ∧ t ≤ milestoneStat stats cat ∧
       announced cat t = false ∧
       cat ∈ ["goals", "assists", "matches", "motm"]) := by
  constructor
  · rintro ⟨e, hmem, hcat, hval⟩
    rw [mem_check_milestones] at hmem
    obtain ⟨hc, h4, h5, h6⟩ := hmem
    subst hcat hval
    refine ⟨h4, h5, h6, ?_⟩
    rcases hc with ⟨h, -, -⟩ | ⟨h, -, -⟩ | ⟨h, -, -⟩ | ⟨h, -, -⟩ <;> simp [h]
  · rintro ⟨h1, h2, h3, h4⟩
    fin_cases h4
    · exact ⟨⟨"goals", t, "⚽", "Goals"⟩,
        (mem_check_milestones announced stats _).2 (by simp_all), rfl, rfl⟩
    · exact ⟨⟨"assists", t, "🅰️", "Assists"⟩,
        (mem_check_milestones announced stats _).2 (by simp_all), rfl, rfl⟩
    · exact ⟨⟨"matches", t, "🎮", "Matches Played"⟩,
        (mem_check_milestones announced stats _).2 (by simp_all), rfl, rfl⟩
    · exact ⟨⟨"motm", t, "⭐", "Man of the Match"⟩,
        (mem_check_milestones announced stats _).2 (by simp_all), rfl, rfl⟩

/-- Announced-state for the scenario-C witness: only the goals threshold 1
is recorded. -/
def c8ann : String → Nat → Bool := fun c t => c == "goals" && t == 1

/-- Roster stats for the scenario-C witness: 10 career goals. -/
def c8stats : Dict := [("goals", .nat 10)]

/-- Witness for C8 (spec scenario C): a player reaching 10 career goals
with threshold 1 already announced gets exactly the threshold-10 goals
event emitted. -/
theorem check_milestones_exact_set_witness :
    (∃ e ∈ check_milestones c8ann c8stats, e.mtype = "goals" ∧ e.value = 10) ∧
    ¬ (∃ e ∈ check_milestones c8ann c8stats, e.mtype = "goals" ∧ e.value = 1) := by
  constructor
  · exact (check_milestones_exact_set c8ann c8stats "goals" 10).mpr
      (by refine ⟨by decide, by decide, by decide, by decide⟩)
  · intro h
    have h2 := (check_milestones_exact_set c8ann c8stats "goals" 1).mp h
    revert h2
    decide

/-- The announced-predicate induced by the `player_milestones` table for one
(guild, player). -/
def announcedOf (st : MilestoneStore) (g : Nat) (p : String) :
    String → Nat → Bool :=
  fun cat t => has_milestone_been_announced st g p cat t

/-- C9: milestone records are monotonic — `record_milestone` (an
`INSERT OR IGNORE`; no operation in `src/database.py` deletes from
`player_milestones`) never removes an existing record — and a threshold
recorded for a (guild, player, category) is never emitted again by
`check_milestones`, whatever the current stats. -/
theorem milestone_monotonic_no_reemit :
    (∀ (st : MilestoneStore) (g : Nat) (p mtype : String) (v : Nat)
       (x : Nat × String × String × Nat), x ∈ st →
       x ∈ record_milestone st g p mtype v) ∧
    (∀ (st : MilestoneStore) (g : Nat) (p : String) (stats : Dict)
       (e : MilestoneEvent), (g, p, e.mtype, e.value) ∈ st →
       e ∉ check_milestones (announcedOf st g p) stats) := by
  constructor
  · intro st g p mtype v x hx
    unfold record_milestone
    split
    · exact hx
    · exact List.mem_append_left _ hx
  · intro st g p stats e hrec hmem
    rw [mem_check_milestones] at hmem
    obtain ⟨-, -, -, h6⟩ := hmem
    rw [announcedOf, has_milestone_been_announced] at h6
    simp only [decide_eq_false_iff_not] at h6
    exact h6 hrec

/-- Witness for C9: with goals threshold 10 recorded for (guild 1, "Alice"),
the record survives a further `record_milestone` and `check_milestones`
does not re-emit the threshold-10 goals event even at 12 career goals. -/
theorem milestone_monotonic_no_reemit_witness :
    (1, "Alice", "goals", 10) ∈
      record_milestone [(1, "Alice", "goals", 10)] 1 "Alice" "goals" 25 ∧
    ({ mtype := "goals", value := 10, emoji := "⚽", label := "Goals" } :
        MilestoneEvent) ∉
      check_milestones (announcedOf [(1, "Alice", "goals", 10)] 1 "Alice")
        [("goals", .nat 12)] := by
  constructor
  · exact milestone_monotonic_no_reemit.1 [(1, "Alice", "goals", 10)]
      1 "Alice" "goals" 25 _ (by simp)
  · exact milestone_monotonic_no_reemit.2 [(1, "Alice", "goals", 10)]
      1 "Alice" [("goals", .nat 12)] _ (by simp)

/-- Six all-win-shaped history rows for the C10 witness. -/
def c10rows : List HistRow :=
  (List.range 6).map
    (fun i => { matchId := toString i, goals := 1, assists := 1,
                cleanSheet := true, playedAt := toString i })

/-- Witness for C10: even on six rows with goals in every match and nothing
announced, neither streak achievement is emitted. -/
theorem streak_fortress_draw_never_emitted_witness :
    "fortress" ∉
      check_streak_achievements (fun _ => false)
        (get_player_match_history c10rows) ∧
    "draw_specialists" ∉
      check_streak_achievements (fun _ => false)
        (get_player_match_history c10rows) :=
  streak_fortress_draw_never_emitted c10rows (fun _ => false)

/-- `pyGetD` reads the stored value when the key is present. -/
theorem pyGetD_of_lookup_some {d : Dict} {k : String} {v : EAVal}
    (h : dlookup d k = some v) (x : EAVal) : pyGetD d k x = v := by
  simp [pyGetD, h]

/-- `pyGetD` falls back to the default when the key is absent. -/
theorem pyGetD_of_lookup_none {d : Dict} {k : String}
    (h : dlookup d k = Option.none) (x : EAVal) : pyGetD d k x = x := by
  simp [pyGetD, h]

/-- A successful anchored regex match implies the needle prefixes the text
and the captured digit group is non-empty. -/
theorem matchIdAt_shape {cs : List Char} {ds : String}
    (h : matchIdAt cs = some ds) :
    matchIdNeedle.isPrefixOf cs = true ∧ ds ≠ "" := by
  unfold matchIdAt at h
  split at h
  · rename_i hpre
    refine ⟨hpre, ?_⟩
    split at h
    · cases h
    · rename_i heq
      cases h
      intro habs
      have hd := congrArg String.data habs
      simp at hd
      simp_all
    · cases h
  · cases h

/-- A successful regex search implies the needle occurs in the text and the
captured digit group is non-empty. -/
theorem searchMatchIdAux_shape {cs : List Char} {ds : String}
    (h : searchMatchIdAux cs = some ds) :
    listHasSub cs matchIdNeedle = true ∧ ds ≠ "" := by
  induction cs with
  | nil => cases h
  | cons c rest ih =>
      unfold searchMatchIdAux at h
      unfold listHasSub
      cases hat : matchIdAt (c :: rest) with
      | some r =>
          rw [hat] at h
          cases h
          obtain ⟨h1, h2⟩ := matchIdAt_shape hat
          exact ⟨by simp [h1], h2⟩
      | none =>
          rw [hat] at h
          obtain ⟨h1, h2⟩ := ih h
          exact ⟨by simp [h1], h2⟩

/-- A successful regex search on a string implies the needle occurs in it
and the captured digit group is non-empty. -/
theorem searchMatchId_shape {s ds : String}
    (h : searchMatchId s = some ds) :
    listHasSub s.data matchIdNeedle = true ∧ ds ≠ "" :=
  searchMatchIdAux_shape h

/-- C3 (amended): the exact identity resolution implemented by the code.
A present top-level `matchId` key wins whenever its value is truthy (its
stringified value); a present-but-falsy value falls to the composite, even
when a successful embedded extraction exists (see the counterexample).
When the key is absent, the candidate is `json_sibling_id`: for a
`matchJson` string containing the `"matchId":"` needle, the embedded digit
extraction (null when the regex fails); for any other string, the string
itself; for a dict, its `matchId` entry; for any other value, the value
itself.  A truthy candidate's string form is the identity; a falsy one
falls to the timestamp/scores composite.  In particular, a record with no
top-level id but an embedded `"matchId":"777"` resolves to `"777"`, not
the composite. -/
theorem identity_resolution_order (m : Dict) (clubIdStr : String) :
    (∀ v, dlookup m "matchId" = some v →
        extract_match_id m clubIdStr =
          (if truthy v then Except.ok (pyStr v)
           else composite_match_id m clubIdStr)) ∧
    (dlookup m "matchId" = Option.none →
        extract_match_id m clubIdStr =
          (if truthy (json_sibling_id m) then
             Except.ok (pyStr (json_sibling_id m))
           else composite_match_id m clubIdStr)) ∧
    (∀ s ds, pyGet m "matchJson" = .str s → searchMatchId s = some ds →
        json_sibling_id m = .str ds) ∧
    (∀ s, pyGet m "matchJson" = .str s → searchMatchId s = Option.none →
        json_sibling_id m =
          (if listHasSub s.data matchIdNeedle then EAVal.none else .str s)) ∧
    (∀ d, pyGet m "matchJson" = .dict d →
        json_sibling_id m = pyGet d "matchId") ∧
    (∀ v, pyGet m "matchJson" = v → (∀ s, v ≠ .str s) → (∀ d, v ≠ .dict d) →
        json_sibling_id m = v) ∧
    (∀ s ds, dlookup m "matchId" = Option.none →
        pyGet m "matchJson" = .str s → searchMatchId s = some ds →
        extract_match_id m clubIdStr = .ok ds) := by
  refine ⟨?_, ?_, ?_, ?_, ?_, ?_, ?_⟩
  · intro v hlk
    unfold extract_match_id
    rw [pyGetD_of_lookup_some hlk]
  · intro hlk
    unfold extract_match_id
    rw [pyGetD_of_lookup_none hlk]
  · intro s ds hjson hsearch
    obtain ⟨hsub, -⟩ := searchMatchId_shape hsearch
    unfold json_sibling_id
    rw [hjson]
    simp [hsub, hsearch]
  · intro s hjson hsearch
    unfold json_sibling_id
    rw [hjson]
    cases hsub : listHasSub s.data matchIdNeedle <;> simp [hsub, hsearch]
  · intro d hjson
    unfold json_sibling_id
    rw [hjson]
  · intro v hjson hns hnd
    unfold json_sibling_id
    rw [hjson]
    cases v with
    | str s => exact absurd rfl (hns s)
    | dict d => exact absurd rfl (hnd d)
    | none => rfl
    | nat n => rfl
    | bool b => rfl
  · intro s ds hlk hjson hsearch
    obtain ⟨hsub, hne⟩ := searchMatchId_shape hsearch
    unfold extract_match_id
    rw [pyGetD_of_lookup_none hlk]
    unfold json_sibling_id
    rw [hjson]
    simp [hsub, hsearch, truthy, hne, pyStr]

/-- Witness for C3 (amended): scenario D — no top-level id, embedded
`"matchId":"777"` — resolves to `"777"`; a needle-free `matchJson` string
becomes the identity verbatim; a dict `matchJson` contributes its
`matchId` entry. -/
theorem identity_resolution_order_witness :
    extract_match_id
      [("matchJson", .str "x\"matchId\":\"777\"y"), ("timestamp", .nat 5)]
      "10" = .ok "777" ∧
    extract_match_id [("matchJson", .str "hello")] "10" = .ok "hello" ∧
    json_sibling_id [("matchJson", .dict [("matchId", .nat 999)])] =
      .nat 999 := by
  refine ⟨?_, ?_, ?_⟩
  · exact (identity_resolution_order
      [("matchJson", .str "x\"matchId\":\"777\"y"), ("timestamp", .nat 5)]
      "10").2.2.2.2.2.2 "x\"matchId\":\"777\"y" "777" rfl rfl rfl
  · have h := (identity_resolution_order
      [("matchJson", .str "hello")] "10").2.1 rfl
    rw [h]
    rfl
  · exact (identity_resolution_order
      [("matchJson", .dict [("matchId", .nat 999)])] "10").2.2.2.2.1
      [("matchId", .nat 999)] rfl

/-- A record whose top-level `matchId` field is present but null, with a
successfully extractable embedded id and a well-formed clubs block. -/
def identityCex : Dict :=
  [("matchId", EAVal.none),
   ("matchJson", .str "\"matchId\":\"777\""),
   ("timestamp", .nat 5),
   ("clubs", .dict [("10", .dict [("score", .nat 1)]),
                    ("77", .dict [("score", .nat 0)])])]

/-- Counterexample to C3 as stated: on `identityCex` the embedded
extraction succeeds with `"777"` (so the claimed first-success order — and
the spec-side chain `identityOf_spec` — yields `"777"`), but the code
falls through to the timestamp/score composite `"5:1-0"`. -/
theorem identity_resolution_counterexample :
    embeddedId_spec identityCex = some "777" ∧
    identityOf_spec identityCex "10" = Except.ok "777" ∧
    extract_match_id identityCex "10" = Except.ok "5:1-0" :=
  ⟨rfl, rfl, rfl⟩

/-- The playoff cursor as read at the start of the playoff section
(`settings.get("last_playoff_match_id") if settings else None`). -/
def playoffLast (env : PlayoffEnv) : Option String :=
  match env.settings with
  | Option.none => Option.none
  | some lp => lp

/-- Characterization of the league section's outcome when a match was
fetched and its identity extracted. -/
theorem leagueStep_spec (row : GuildRow) (lenv : LeagueEnv)
    (M : Dict) (mt : String) (idStr : String) (lout : LeagueOut)
    (hlat : lenv.latest = .ok (some (M, mt)))
    (hid : extract_match_id M (pyStr row.clubId) = .ok idStr)
    (hrun : leagueStep row lenv = .ok lout) :
    ((lout.newDetected = true) ↔ row.lastMatchId ≠ some idStr) ∧
    (row.lastMatchId = some idStr →
        lout.deliveryAttempted = false ∧ lout.posted = false ∧
        lout.cursorWritten = Option.none ∧ lout.monthlyMatch = Option.none) ∧
    (lout.deliveryAttempted = true → lout.newDetected = true) ∧
    (lout.newDetected = true → lenv.channelOk = true → lenv.embedOk = true →
        lout.deliveryAttempted = true) ∧
    (lenv.sendOk = false → lout.cursorWritten = Option.none) ∧
    (∀ s, lout.cursorWritten = some s →
        lout.posted = true ∧ lenv.sendOk = true ∧ s = idStr) ∧
    (lout.posted = true → lenv.cursorWriteOk = true →
        lout.cursorWritten = some idStr) ∧
    (lout.monthlyMatch ≠ Option.none → lout.posted = true) := by
  cases hci : lenv.clubInfo with
  | error e => simp [leagueStep, hci] at hrun
  | ok info =>
    simp only [leagueStep, hci, hlat, hid] at hrun
    cases hlm : row.lastMatchId with
    | none =>
        simp only [hlm] at hrun
        cases hch : lenv.channelOk <;> cases hem : lenv.embedOk <;>
          cases hse : lenv.sendOk <;> cases hcw : lenv.cursorWriteOk <;>
          simp only [hch, hem, hse, hcw, Bool.not_false, Bool.not_true,
            Bool.false_eq_true, Bool.true_eq_false, eq_self_iff_true,
            if_true, if_false, ite_true, ite_false, Except.ok.injEq] at hrun <;>
          subst hrun <;> simp [hlm]
    | some s0 =>
        by_cases hseq : idStr = s0
        · subst hseq
          simp only [hlm, decide_True, if_true, ite_true, Except.ok.injEq] at hrun
          subst hrun
          simp [hlm]
        · simp only [hlm, hseq, decide_False, if_false, ite_false,
            Bool.false_eq_true] at hrun
          cases hch : lenv.channelOk <;> cases hem : lenv.embedOk <;>
            cases hse : lenv.sendOk <;> cases hcw : lenv.cursorWriteOk <;>
            simp only [hch, hem, hse, hcw, Bool.not_false, Bool.not_true,
              Bool.false_eq_true, Bool.true_eq_false, eq_self_iff_true,
              if_true, if_false, ite_true, ite_false, Except.ok.injEq] at hrun <;>
            subst hrun <;> simp [hlm] <;> simp [eq_comm, hseq]

/-- Characterization of the playoff section's outcome when a playoff match
was fetched. -/
theorem playoffStep_spec (row : GuildRow) (penv : PlayoffEnv)
    (PM : Dict) (pmt : String) (pout : PlayoffOut)
    (hplat : penv.latestPlayoff = some (PM, pmt))
    (hprun : playoffStep row penv = .ok pout) :
    ((pout.poNewDetected = true) ↔ playoffLast penv ≠ some (playoff_match_id PM)) ∧
    (playoffLast penv = some (playoff_match_id PM) →
        pout.poPosted = false ∧ pout.poCursorWritten = Option.none ∧
        pout.playoffMatch = Option.none) ∧
    (pout.poNewDetected = true →
        pout.poCursorWritten = some (playoff_match_id PM)) ∧
    (pout.playoffMatch ≠ Option.none → pout.poNewDetected = true) := by
  cases hset : penv.settings with
  | none =>
      simp only [playoffStep, hplat, hset] at hprun
      cases hcw : penv.poCursorWriteOk <;>
        simp only [hcw, Bool.not_false, Bool.not_true, if_true, if_false,
          ite_true, ite_false, Bool.true_eq_false, Except.ok.injEq,
          reduceCtorEq] at hprun
      subst hprun
      simp [playoffLast, hset]
  | some lp =>
      cases lp with
      | none =>
          simp only [playoffStep, hplat, hset] at hprun
          cases hcw : penv.poCursorWriteOk <;>
            simp only [hcw, Bool.not_false, Bool.not_true, if_true, if_false,
              ite_true, ite_false, Bool.true_eq_false, Except.ok.injEq,
              reduceCtorEq] at hprun
          subst hprun
          simp [playoffLast, hset]
      | some l =>
          by_cases hpe : playoff_match_id PM = l
          · subst hpe
            simp only [playoffStep, hplat, hset, ne_eq, not_true_eq_false,
              decide_False, Bool.not_false, if_true, ite_true, Except.ok.injEq,
              decide_not, decide_True, Bool.not_true, Bool.false_eq_true,
              if_false, ite_false] at hprun
            subst hprun
            simp [playoffLast, hset]
          · simp only [playoffStep, hplat, hset, ne_eq, hpe, decide_False,
              decide_not, decide_True, Bool.not_true, Bool.not_false,
              not_false_eq_true, if_true, ite_true, if_false, ite_false,
              Bool.false_eq_true] at hprun
            cases hcw : penv.poCursorWriteOk <;>
              simp only [hcw, Bool.not_false, Bool.not_true, if_true, if_false,
                ite_true, ite_false, Bool.true_eq_false, Except.ok.injEq,
                reduceCtorEq] at hprun
            subst hprun
            refine ⟨?_, ?_, fun _ => rfl, fun _ => rfl⟩
            · simp only [playoffLast, hset, ne_eq, Option.some.injEq]
              simp only [true_iff]
              exact fun h => hpe h.symm
            · intro h
              simp only [playoffLast, hset, Option.some.injEq] at h
              exact absurd h.symm hpe

/-- C1: for both match categories, a fetched match is treated as new (post
attempted, and on success the cursor advanced to its identity) exactly when
the stored cursor for that category is absent or differs from the match's
identity string; when the identity equals the stored cursor the step
performs no post attempt and no cursor write for that category. -/
theorem dedup_new_iff_cursor_differs
    (row : GuildRow) (lenv : LeagueEnv) (penv : PlayoffEnv)
    (M : Dict) (mt : String) (idStr : String) (lout : LeagueOut)
    (PM : Dict) (pmt : String) (pout : PlayoffOut)
    (hlat : lenv.latest = .ok (some (M, mt)))
    (hid : extract_match_id M (pyStr row.clubId) = .ok idStr)
    (hrun : leagueStep row lenv = .ok lout)
    (hplat : penv.latestPlayoff = some (PM, pmt))
    (hprun : playoffStep row penv = .ok pout) :
    ((lout.newDetected = true) ↔ row.lastMatchId ≠ some idStr) ∧
    (row.lastMatchId = some idStr →
        lout.deliveryAttempted = false ∧ lout.posted = false ∧
        lout.cursorWritten = Option.none) ∧
    (lout.deliveryAttempted = true → lout.newDetected = true) ∧
    (lout.newDetected = true → lenv.channelOk = true → lenv.embedOk = true →
        lout.deliveryAttempted = true) ∧
    (lout.posted = true → lenv.cursorWriteOk = true →
        lout.cursorWritten = some idStr) ∧
    ((pout.poNewDetected = true) ↔
        playoffLast penv ≠ some (playoff_match_id PM)) ∧
    (playoffLast penv = some (playoff_match_id PM) →
        pout.poPosted = false ∧ pout.poCursorWritten = Option.none) ∧
    (pout.poNewDetected = true →
        pout.poCursorWritten = some (playoff_match_id PM)) := by
  obtain ⟨l1, l2, l3, l4, -, -, l7, -⟩ :=
    leagueStep_spec row lenv M mt idStr lout hlat hid hrun
  obtain ⟨p1, p2, p3, -⟩ := playoffStep_spec row penv PM pmt pout hplat hprun
  exact ⟨l1, fun h => ⟨(l2 h).1, (l2 h).2.1, (l2 h).2.2.1⟩, l3, l4, l7,
    p1, fun h => ⟨(p2 h).1, (p2 h).2.1⟩, p3⟩

/-- A configured guild row with no league cursor yet. -/
def wRow : GuildRow :=
  { guildId := 1, clubId := .nat 10, platform := .str "common-gen5",
    channelId := .nat 99, lastMatchId := Option.none, autopost := 1 }

/-- A league match record with explicit id `"555"`. -/
def wMatch : Dict := [("matchId", .str "555"), ("timestamp", .nat 100)]

/-- A fully healthy league environment fetching `wMatch`. -/
def wLenv : LeagueEnv :=
  { clubInfo := .ok (.dict [], "common-gen5"),
    latest := .ok (some (wMatch, "leagueMatch")),
    channelOk := true, embedOk := true, sendOk := true, cursorWriteOk := true }

/-- A playoff environment whose stored playoff cursor already equals the
fetched playoff match's identity `"777"`. -/
def wPenv : PlayoffEnv :=
  { settings := some (some "777"),
    latestPlayoff := some ([("matchId", .str "777")], "playoffMatch"),
    poChannelOk := true, poClubInfo := .ok (.dict [], "common-gen5"),
    poEmbedOk := true, poSendOk := true, poCursorWriteOk := true }

/-- Outcome of the league section on the witness inputs. -/
def wLout : LeagueOut := (leagueStep wRow wLenv).toOption.getD {}

/-- Outcome of the playoff section on the witness inputs. -/
def wPout : PlayoffOut := (playoffStep wRow wPenv).toOption.getD {}

/-- Witness for C1: with no cursor, match `"555"` is detected as new and the
cursor advances to `"555"` after the successful post (spec scenario A);
with the playoff cursor already at `"777"`, the identical playoff match
yields no post and no cursor write (spec scenario B). -/
theorem dedup_new_iff_cursor_differs_witness :
    wLout.newDetected = true ∧ wLout.cursorWritten = some "555" ∧
    wPout.poPosted = false ∧ wPout.poCursorWritten = Option.none := by
  have h := dedup_new_iff_cursor_differs wRow wLenv wPenv wMatch "leagueMatch"
    "555" wLout [("matchId", .str "777")] "playoffMatch" wPout
    rfl rfl rfl rfl rfl
  refine ⟨h.1.mpr (by decide), h.2.2.2.2.1 rfl rfl, ?_, ?_⟩
  · exact (h.2.2.2.2.2.2.1 rfl).1
  · exact (h.2.2.2.2.2.2.1 rfl).2

/-- C2 (amended): for the league category, a failed delivery leaves the
cursor unwritten and a cursor write implies a successful post of exactly
that identity; for the playoff category, however, the cursor is advanced
whenever a new playoff match is detected, regardless of the delivery
outcome. -/
theorem league_cursor_only_after_post
    (row : GuildRow) (lenv : LeagueEnv) (penv : PlayoffEnv)
    (M : Dict) (mt : String) (idStr : String) (lout : LeagueOut)
    (PM : Dict) (pmt : String) (pout : PlayoffOut)
    (hlat : lenv.latest = .ok (some (M, mt)))
    (hid : extract_match_id M (pyStr row.clubId) = .ok idStr)
    (hrun : leagueStep row lenv = .ok lout)
    (hplat : penv.latestPlayoff = some (PM, pmt))
    (hprun : playoffStep row penv = .ok pout) :
    (lenv.sendOk = false → lout.cursorWritten = Option.none) ∧
    (∀ s, lout.cursorWritten = some s →
        lout.posted = true ∧ lenv.sendOk = true ∧ s = idStr) ∧
    (pout.poNewDetected = true →
        pout.poCursorWritten = some (playoff_match_id PM)) := by
  obtain ⟨-, -, -, -, l5, l6, -, -⟩ :=
    leagueStep_spec row lenv M mt idStr lout hlat hid hrun
  obtain ⟨-, -, p3, -⟩ := playoffStep_spec row penv PM pmt pout hplat hprun
  exact ⟨l5, l6, p3⟩

/-- A playoff environment with a new playoff match `"555"` whose Discord
delivery fails (`poSendOk = false`). -/
def c2penv : PlayoffEnv :=
  { settings := some Option.none,
    latestPlayoff := some ([("matchId", .str "555")], "playoffMatch"),
    poChannelOk := true, poClubInfo := .ok (.dict [], "common-gen5"),
    poEmbedOk := true, poSendOk := false, poCursorWriteOk := true }

/-- Outcome of the playoff section on the counterexample inputs. -/
def c2pout : PlayoffOut := (playoffStep wRow c2penv).toOption.getD {}

/-- Counterexample to C2 as stated: in the playoff category a new match
whose delivery fails still has its cursor persisted — the same match is
*not* re-evaluated as new next cycle, so "for every match category ... the
cursor is persisted only after a successful post" is false on this input
(`src/bot_new.py` lines 463-490: `set_last_playoff_match_id` runs outside
the posting `try`). -/
theorem playoff_cursor_advanced_despite_failed_post :
    playoffStep wRow c2penv = .ok c2pout ∧
    c2pout.poNewDetected = true ∧ c2pout.poPosted = false ∧
    c2pout.poCursorWritten = some "555" :=
  ⟨rfl, rfl, rfl, rfl⟩

/-- A league environment identical to `wLenv` except that the Discord send
fails. -/
def c2lenv : LeagueEnv := { wLenv with sendOk := false }

/-- Outcome of the league section when the send fails. -/
def c2lout : LeagueOut := (leagueStep wRow c2lenv).toOption.getD {}

/-- Witness for C2 (amended): with a failed league send the cursor stays
unwritten, while the playoff branch still advances its cursor. -/
theorem league_cursor_only_after_post_witness :
    c2lout.cursorWritten = Option.none ∧
    c2pout.poCursorWritten = some (playoff_match_id [("matchId", .str "555")]) := by
  have h := league_cursor_only_after_post wRow c2lenv c2penv wMatch
    "leagueMatch" "555" c2lout [("matchId", .str "555")] "playoffMatch" c2pout
    rfl rfl rfl rfl rfl
  exact ⟨h.1 rfl, h.2.2 rfl⟩

/-- If a cycle fed the monthly accumulator and its cursor write succeeded,
the cursor afterwards equals the fetched match's identity. -/
theorem fedThisCycle_nextCursor (row : GuildRow) (M : Dict) (idStr : String)
    (hid : extract_match_id M (pyStr row.clubId) = .ok idStr)
    (c : Option String) (env : LeagueEnv) (mt : String)
    (hlat : env.latest = .ok (some (M, mt)))
    (hcw : env.cursorWriteOk = true)
    (hfed : fedThisCycle row c env = true) :
    nextCursor row c env = some idStr := by
  unfold fedThisCycle at hfed
  unfold nextCursor
  cases hstep : leagueStep { row with lastMatchId := c } env with
  | error e => rw [hstep] at hfed; cases hfed
  | ok o =>
      rw [hstep] at hfed
      obtain ⟨-, -, -, -, -, -, l7, l8⟩ :=
        leagueStep_spec { row with lastMatchId := c } env M mt idStr o hlat hid hstep
      have hpost : o.posted = true := l8 (by simpa [Option.isSome_iff_ne_none] using hfed)
      simp [l7 hpost hcw]

/-- Once the cursor equals the match's identity, a cycle fetching the same
match feeds nothing and leaves the cursor unchanged. -/
theorem cursor_at_id_no_feed (row : GuildRow) (M : Dict) (idStr : String)
    (hid : extract_match_id M (pyStr row.clubId) = .ok idStr)
    (env : LeagueEnv) (mt : String)
    (hlat : env.latest = .ok (some (M, mt))) :
    fedThisCycle row (some idStr) env = false ∧
    nextCursor row (some idStr) env = some idStr := by
  unfold fedThisCycle nextCursor
  cases hstep : leagueStep { row with lastMatchId := some idStr } env with
  | error e => exact ⟨rfl, rfl⟩
  | ok o =>
      obtain ⟨-, l2, -, -, -, -, -, -⟩ :=
        leagueStep_spec { row with lastMatchId := some idStr } env M mt idStr o
          hlat hid hstep
      obtain ⟨-, -, hcw, hmm⟩ := l2 rfl
      simp [hcw, hmm]

/-- The witness match: explicit id `"555"`, one tracked-club player block
("Alice", 2 goals, 1 assist, rating 8). -/
def c4M : Dict :=
  [("matchId", .str "555"), ("timestamp", .nat 100),
   ("players", .dict [("10", .dict
      [("p1", .dict [("playername", .str "Alice"), ("goals", .nat 2),
                     ("assists", .nat 1), ("rating", .nat 8)])])])]

/-- Cycle 1: post succeeds, the `set_last_match_id` write fails. -/
def c4lenv1 : LeagueEnv :=
  { clubInfo := .ok (.dict [], "common-gen5"),
    latest := .ok (some (c4M, "leagueMatch")),
    channelOk := true, embedOk := true, sendOk := true, cursorWriteOk := false }

/-- Cycle 2: the same fetched match, everything succeeds. -/
def c4lenv2 : LeagueEnv := { c4lenv1 with cursorWriteOk := true }

/-- The calendar conversion fixed to period `"2025-01"`. -/
def c4mk : Nat → String := fun _ => "2025-01"

/-- Initial persistent state: no cursor, empty monthly store. -/
def c4st0 : LeagueCycleState :=
  { lastMatchId := Option.none, monthly := fun _ => {} }

/-- State after the two cycles. -/
def c4final : LeagueCycleState :=
  leagueTrace c4mk "2025-01" wRow c4st0 [c4lenv1, c4lenv2]

/-- Counterexample to C4 as stated: when the post succeeds but the cursor
write fails (`src/bot_new.py` lines 336-345: the failure is logged and
monthly processing still runs), the same (player, match) pair is fed into
the monthly accumulator again on the next cycle — Alice's single 2-goal
match is accumulated as 4 goals over 2 matches-played. -/
theorem monthly_double_accumulation_on_cursor_write_failure :
    (c4final.monthly ("Alice", "2025-01")).goals = 4 ∧
    (c4final.monthly ("Alice", "2025-01")).matchesPlayed = 2 ∧
    monthlyFeedCount wRow Option.none [c4lenv1, c4lenv2] = 2 :=
  ⟨by decide, by decide, by decide⟩

/-- The identity of the match fetched by a league cycle, when any. -/
def fetchedId (row : GuildRow) (env : LeagueEnv) : Option String :=
  match env.latest with
  | .ok (some (m, _)) => (extract_match_id m (pyStr row.clubId)).toOption
  | _ => Option.none

/-- Count, along a league trace, of the cycles that hand a match of the
given identity to `process_league_match_monthly`. -/
def monthlyFeedCountOf (row : GuildRow) (idStr : String) :
    Option String → List LeagueEnv → Nat
  | _, [] => 0
  | c, env :: rest =>
      (if fedThisCycle row c env ∧ fetchedId row env = some idStr then 1 else 0) +
        monthlyFeedCountOf row idStr (nextCursor row c env) rest

/-- The league cursor after running a trace. -/
def cursorAfter (row : GuildRow) : Option String → List LeagueEnv → Option String
  | c, [] => c
  | c, env :: rest => cursorAfter row (nextCursor row c env) rest

/-- One playoff cycle's effect on the persisted playoff cursor: the stored
cursor `c` is read back through `get_settings` at the start of the playoff
section (the guild's settings row exists; the column is the spec-modelled
one of `PlayoffEnv.settings`). -/
def pNextCursor (row : GuildRow) (c : Option String) (env : PlayoffEnv) :
    Option String :=
  match playoffStep row { env with settings := some c } with
  | .error _ => c
  | .ok o =>
      match o.poCursorWritten with
      | some s => some s
      | Option.none => c

/-- Did this playoff cycle hand its match to `process_playoff_match`? -/
def pFedThisCycle (row : GuildRow) (c : Option String) (env : PlayoffEnv) :
    Bool :=
  match playoffStep row { env with settings := some c } with
  | .error _ => false
  | .ok o => o.playoffMatch.isSome

/-- The identity of the playoff match fetched by a cycle, when any. -/
def pFetchedId (env : PlayoffEnv) : Option String :=
  match env.latestPlayoff with
  | some (pm, _) => some (playoff_match_id pm)
  | Option.none => Option.none

/-- Count, along a playoff trace, of the cycles that hand a match of the
given identity to `process_playoff_match`. -/
def playoffFeedCountOf (row : GuildRow) (pid : String) :
    Option String → List PlayoffEnv → Nat
  | _, [] => 0
  | c, env :: rest =>
      (if pFedThisCycle row c env ∧ pFetchedId env = some pid then 1 else 0) +
        playoffFeedCountOf row pid (pNextCursor row c env) rest

/-- The playoff cursor after running a trace. -/
def pCursorAfter (row : GuildRow) :
    Option String → List PlayoffEnv → Option String
  | c, [] => c
  | c, env :: rest => pCursorAfter row (pNextCursor row c env) rest

/-- Unpack a cycle's fetched identity. -/
theorem fetchedId_some {row : GuildRow} {env : LeagueEnv} {idStr : String}
    (h : fetchedId row env = some idStr) :
    ∃ m mt, env.latest = .ok (some (m, mt)) ∧
      extract_match_id m (pyStr row.clubId) = .ok idStr := by
  unfold fetchedId at h
  cases hl : env.latest with
  | error e => simp [hl] at h
  | ok v =>
      cases v with
      | none => simp [hl] at h
      | some p =>
          obtain ⟨m, mt⟩ := p
          simp only [hl] at h
          refine ⟨m, mt, rfl, ?_⟩
          cases he : extract_match_id m (pyStr row.clubId) with
          | error u => simp [he, Except.toOption] at h
          | ok r =>
              simp only [he, Except.toOption, Option.some.injEq] at h
              rw [h]

/-- A cycle fetching the given identity that feeds the accumulator (its
cursor write succeeding) leaves the cursor at that identity. -/
theorem fed_id_nextCursor (row : GuildRow) (idStr : String)
    (c : Option String) (env : LeagueEnv)
    (hfid : fetchedId row env = some idStr)
    (hcw : env.cursorWriteOk = true)
    (hfed : fedThisCycle row c env = true) :
    nextCursor row c env = some idStr := by
  obtain ⟨m, mt, hlat, hid⟩ := fetchedId_some hfid
  exact fedThisCycle_nextCursor row m idStr hid c env mt hlat hcw hfed

/-- With the cursor at the fetched identity, a cycle feeds nothing and
keeps the cursor. -/
theorem fed_id_at_cursor (row : GuildRow) (idStr : String) (env : LeagueEnv)
    (hfid : fetchedId row env = some idStr) :
    fedThisCycle row (some idStr) env = false ∧
    nextCursor row (some idStr) env = some idStr := by
  obtain ⟨m, mt, hlat, hid⟩ := fetchedId_some hfid
  exact cursor_at_id_no_feed row m idStr hid env mt hlat

/-- Cycles that do not fetch the identity never feed it. -/
theorem monthlyFeedCountOf_nofetch (row : GuildRow) (idStr : String) :
    ∀ (envs : List LeagueEnv),
      (∀ e ∈ envs, fetchedId row e ≠ some idStr) →
      ∀ c, monthlyFeedCountOf row idStr c envs = 0 := by
  intro envs
  induction envs with
  | nil => intro _ c; rfl
  | cons e es ih =>
      intro h c
      unfold monthlyFeedCountOf
      rw [if_neg (fun hc => h e (by simp) hc.2)]
      simpa using ih (fun x hx => h x (by simp [hx])) (nextCursor row c e)

/-- From a cursor already at the identity, cycles fetching it feed
nothing. -/
theorem monthlyFeedCountOf_from_id (row : GuildRow) (idStr : String) :
    ∀ (envs : List LeagueEnv),
      (∀ e ∈ envs, fetchedId row e = some idStr) →
      monthlyFeedCountOf row idStr (some idStr) envs = 0 := by
  intro envs
  induction envs with
  | nil => intro _; rfl
  | cons e es ih =>
      intro h
      obtain ⟨hfed, hnext⟩ := fed_id_at_cursor row idStr e (h e (by simp))
      unfold monthlyFeedCountOf
      rw [if_neg (fun hc => by simp [hfed] at hc), hnext]
      simpa using ih (fun x hx => h x (by simp [hx]))

/-- A block of cycles fetching the identity, with reliable cursor writes,
feeds it at most once, from any starting cursor. -/
theorem monthlyFeedCountOf_block (row : GuildRow) (idStr : String) :
    ∀ (envs : List LeagueEnv),
      (∀ e ∈ envs, fetchedId row e = some idStr ∧ e.cursorWriteOk = true) →
      ∀ c, monthlyFeedCountOf row idStr c envs ≤ 1 := by
  intro envs
  induction envs with
  | nil => intro _ c; simp [monthlyFeedCountOf]
  | cons e es ih =>
      intro h c
      obtain ⟨hfid, hcw⟩ := h e (by simp)
      unfold monthlyFeedCountOf
      by_cases hfed : fedThisCycle row c e = true
      · rw [if_pos ⟨hfed, hfid⟩, fed_id_nextCursor row idStr c e hfid hcw hfed,
          monthlyFeedCountOf_from_id row idStr es
            (fun x hx => (h x (by simp [hx])).1)]
      · rw [if_neg (fun hc => hfed hc.1)]
        simpa using ih (fun x hx => h x (by simp [hx])) (nextCursor row c e)

/-- Splitting a league trace splits its feed count at the intermediate
cursor. -/
theorem monthlyFeedCountOf_append (row : GuildRow) (idStr : String) :
    ∀ (xs ys : List LeagueEnv) (c : Option String),
      monthlyFeedCountOf row idStr c (xs ++ ys) =
        monthlyFeedCountOf row idStr c xs +
          monthlyFeedCountOf row idStr (cursorAfter row c xs) ys := by
  intro xs
  induction xs with
  | nil => intro ys c; simp [monthlyFeedCountOf, cursorAfter]
  | cons e es ih =>
      intro ys c
      simp only [List.cons_append, monthlyFeedCountOf, cursorAfter, List.append_eq]
      rw [ih ys (nextCursor row c e)]
      omega

/-- Unpack a playoff cycle's fetched identity. -/
theorem pFetchedId_some {env : PlayoffEnv} {pid : String}
    (h : pFetchedId env = some pid) :
    ∃ pm pmt, env.latestPlayoff = some (pm, pmt) ∧
      playoff_match_id pm = pid := by
  unfold pFetchedId at h
  cases hl : env.latestPlayoff with
  | none => simp [hl] at h
  | some p =>
      obtain ⟨pm, pmt⟩ := p
      simp only [hl, Option.some.injEq] at h
      exact ⟨pm, pmt, rfl, h⟩

/-- A playoff cycle that feeds its fetched match has necessarily committed
the cursor to that match's identity (`process_playoff_match` runs only
after `set_last_playoff_match_id` succeeds). -/
theorem pfed_nextCursor (row : GuildRow) (pid : String) (c : Option String)
    (env : PlayoffEnv) (hfid : pFetchedId env = some pid)
    (hfed : pFedThisCycle row c env = true) :
    pNextCursor row c env = some pid := by
  obtain ⟨pm, pmt, hlat, hpid⟩ := pFetchedId_some hfid
  unfold pFedThisCycle at hfed
  unfold pNextCursor
  cases hps : playoffStep row { env with settings := some c } with
  | error e => simp [hps] at hfed
  | ok o =>
      simp only [hps] at hfed ⊢
      obtain ⟨-, -, p3, p4⟩ := playoffStep_spec row
        { env with settings := some c } pm pmt o hlat hps
      have hcw := p3 (p4 (by simpa [Option.isSome_iff_ne_none] using hfed))
      simp [hcw, hpid]

/-- With the playoff cursor at the fetched identity, a cycle feeds nothing
and keeps the cursor. -/
theorem pfed_at_cursor (row : GuildRow) (pid : String) (env : PlayoffEnv)
    (hfid : pFetchedId env = some pid) :
    pFedThisCycle row (some pid) env = false ∧
    pNextCursor row (some pid) env = some pid := by
  obtain ⟨pm, pmt, hlat, hpid⟩ := pFetchedId_some hfid
  unfold pFedThisCycle pNextCursor
  cases hps : playoffStep row { env with settings := some (some pid) } with
  | error e => simp [hps]
  | ok o =>
      simp only [hps]
      obtain ⟨-, p2, -, -⟩ := playoffStep_spec row
        { env with settings := some (some pid) } pm pmt o hlat hps
      have hlast : playoffLast { env with settings := some (some pid) } =
          some (playoff_match_id pm) := by simp [playoffLast, hpid]
      obtain ⟨-, hcw, hpm⟩ := p2 hlast
      simp [hcw, hpm]

/-- Playoff cycles that do not fetch the identity never feed it. -/
theorem playoffFeedCountOf_nofetch (row : GuildRow) (pid : String) :
    ∀ (envs : List PlayoffEnv),
      (∀ e ∈ envs, pFetchedId e ≠ some pid) →
      ∀ c, playoffFeedCountOf row pid c envs = 0 := by
  intro envs
  induction envs with
  | nil => intro _ c; rfl
  | cons e es ih =>
      intro h c
      unfold playoffFeedCountOf
      rw [if_neg (fun hc => h e (by simp) hc.2)]
      simpa using ih (fun x hx => h x (by simp [hx])) (pNextCursor row c e)

/-- From a playoff cursor already at the identity, cycles fetching it feed
nothing. -/
theorem playoffFeedCountOf_from_id (row : GuildRow) (pid : String) :
    ∀ (envs : List PlayoffEnv),
      (∀ e ∈ envs, pFetchedId e = some pid) →
      playoffFeedCountOf row pid (some pid) envs = 0 := by
  intro envs
  induction envs with
  | nil => intro _; rfl
  | cons e es ih =>
      intro h
      obtain ⟨hfed, hnext⟩ := pfed_at_cursor row pid e (h e (by simp))
      unfold playoffFeedCountOf
      rw [if_neg (fun hc => by simp [hfed] at hc), hnext]
      simpa using ih (fun x hx => h x (by simp [hx]))

/-- A block of playoff cycles fetching the identity feeds it at most once,
from any starting cursor — with no assumption on delivery or cursor-write
success. -/
theorem playoffFeedCountOf_block (row : GuildRow) (pid : String) :
    ∀ (envs : List PlayoffEnv),
      (∀ e ∈ envs, pFetchedId e = some pid) →
      ∀ c, playoffFeedCountOf row pid c envs ≤ 1 := by
  intro envs
  induction envs with
  | nil => intro _ c; simp [playoffFeedCountOf]
  | cons e es ih =>
      intro h c
      have hfid := h e (by simp)
      unfold playoffFeedCountOf
      by_cases hfed : pFedThisCycle row c e = true
      · rw [if_pos ⟨hfed, hfid⟩, pfed_nextCursor row pid c e hfid hfed,
          playoffFeedCountOf_from_id row pid es
            (fun x hx => h x (by simp [hx]))]
      · rw [if_neg (fun hc => hfed hc.1)]
        simpa using ih (fun x hx => h x (by simp [hx])) (pNextCursor row c e)

/-- Splitting a playoff trace splits its feed count at the intermediate
cursor. -/
theorem playoffFeedCountOf_append (row : GuildRow) (pid : String) :
    ∀ (xs ys : List PlayoffEnv) (c : Option String),
      playoffFeedCountOf row pid c (xs ++ ys) =
        playoffFeedCountOf row pid c xs +
          playoffFeedCountOf row pid (pCursorAfter row c xs) ys := by
  intro xs
  induction xs with
  | nil => intro ys c; simp [playoffFeedCountOf, pCursorAfter]
  | cons e es ih =>
      intro ys c
      simp only [List.cons_append, playoffFeedCountOf, pCursorAfter, List.append_eq]
      rw [ih ys (pNextCursor row c e)]
      omega

/-- C4 (amended): per (player, match) accumulation, for traces in which the
cycles fetching the given match form one contiguous block (the dedup
cursor remembers only the single latest identity).  Playoff half: the
playoff accumulator is fed that match at most once with *no* assumption on
delivery or cursor-write success, because `process_playoff_match` runs
only after `set_last_playoff_match_id` succeeds.  Monthly half: the
monthly accumulator is fed that match at most once provided the league
cursor write succeeds on each cycle fetching it; dropping that proviso is
refuted by the counterexample (post succeeds, write fails, the pair is fed
again next cycle). -/
theorem accumulator_feed_at_most_once (row : GuildRow) (idStr pid : String)
    (lpre lmid lsuf : List LeagueEnv) (c0 : Option String)
    (hlpre : ∀ e ∈ lpre, fetchedId row e ≠ some idStr)
    (hlmid : ∀ e ∈ lmid, fetchedId row e = some idStr ∧ e.cursorWriteOk = true)
    (hlsuf : ∀ e ∈ lsuf, fetchedId row e ≠ some idStr)
    (ppre pmid psuf : List PlayoffEnv) (pc0 : Option String)
    (hppre : ∀ e ∈ ppre, pFetchedId e ≠ some pid)
    (hpmid : ∀ e ∈ pmid, pFetchedId e = some pid)
    (hpsuf : ∀ e ∈ psuf, pFetchedId e ≠ some pid) :
    monthlyFeedCountOf row idStr c0 (lpre ++ lmid ++ lsuf) ≤ 1 ∧
    playoffFeedCountOf row pid pc0 (ppre ++ pmid ++ psuf) ≤ 1 := by
  constructor
  · rw [List.append_assoc, monthlyFeedCountOf_append,
      monthlyFeedCountOf_append,
      monthlyFeedCountOf_nofetch row idStr lpre hlpre c0,
      monthlyFeedCountOf_nofetch row idStr lsuf hlsuf _]
    have hb := monthlyFeedCountOf_block row idStr lmid hlmid
      (cursorAfter row c0 lpre)
    omega
  · rw [List.append_assoc, playoffFeedCountOf_append,
      playoffFeedCountOf_append,
      playoffFeedCountOf_nofetch row pid ppre hppre pc0,
      playoffFeedCountOf_nofetch row pid psuf hpsuf _]
    have hb := playoffFeedCountOf_block row pid pmid hpmid
      (pCursorAfter row pc0 ppre)
    omega

/-- A league cycle fetching a different match (id `"111"`). -/
def c4preEnv : LeagueEnv :=
  { c4lenv2 with
    latest := .ok (some ([("matchId", .str "111")], "leagueMatch")) }

/-- A playoff cycle fetching match `"555"` whose cursor write fails (and
whose delivery fails too). -/
def c4pFail : PlayoffEnv := { c2penv with poCursorWriteOk := false }

/-- A playoff cycle fetching a different playoff match (id `"111"`). -/
def c4pPre : PlayoffEnv :=
  { c2penv with
    latestPlayoff := some ([("matchId", .str "111")], "playoffMatch") }

/-- Witness for C4 (amended): a league trace (other match, the match twice
with reliable writes, other match) feeds match 555 at most once; a playoff
trace in which the first fetch of match 555 hits a cursor-write failure
still feeds it at most once. -/
theorem accumulator_feed_at_most_once_witness :
    monthlyFeedCountOf wRow "555" Option.none
      ([c4preEnv] ++ [c4lenv2, c4lenv2] ++ [c4preEnv]) ≤ 1 ∧
    playoffFeedCountOf wRow "555" Option.none
      ([c4pPre] ++ [c4pFail, c2penv] ++ [c4pPre]) ≤ 1 := by
  exact accumulator_feed_at_most_once wRow "555" "555"
    [c4preEnv] [c4lenv2, c4lenv2] [c4preEnv] Option.none
    (by intro e he
        simp only [List.mem_singleton] at he
        subst he
        decide)
    (by intro e he
        simp only [List.mem_cons, List.not_mem_nil, or_false] at he
        rcases he with h | h <;> subst h <;> exact ⟨by decide, rfl⟩)
    (by intro e he
        simp only [List.mem_singleton] at he
        subst he
        decide)
    [c4pPre] [c4pFail, c2penv] [c4pPre] Option.none
    (by intro e he
        simp only [List.mem_singleton] at he
        subst he
        decide)
    (by intro e he
        simp only [List.mem_cons, List.not_mem_nil, or_false] at he
        rcases he with h | h <;> subst h <;> decide)
    (by intro e he
        simp only [List.mem_singleton] at he
        subst he
        decide)

/-- `coolUpdate` touches only the guild's own cooldown entry. -/
theorem coolUpdate_apply_ne {α : Type} {now g x : Nat} (hx : x ≠ g)
    (c : Cooldown) (r : Except FetchErr α) :
    coolUpdate now g c r x = c x := by
  unfold coolUpdate
  cases r with
  | ok a => rfl
  | error e => cases e <;> simp [setCool, hx]

/-- `coolUpdate` is pointwise congruent in the base map. -/
theorem coolUpdate_apply_congr {α : Type} {now g x : Nat}
    {c c2 : Cooldown} (hag : c x = c2 x) (r : Except FetchErr α) :
    coolUpdate now g c r x = coolUpdate now g c2 r x := by
  unfold coolUpdate
  cases r with
  | ok a => exact hag
  | error e => cases e <;> simp [setCool, hag]

/-- One guild's iteration changes the cooldown map only at its own id. -/
theorem guildIter_cool_apply_ne (now : Nat) (cool : Cooldown) (row : GuildRow)
    (env : GuildEnv) (g : Nat) (hg : g ≠ row.guildId) :
    (guildIter now cool row env).1 g = cool g := by
  unfold guildIter
  split_ifs <;> try rfl
  all_goals
    simp only []
    rw [coolUpdate_apply_ne hg, coolUpdate_apply_ne hg]
    try simp [setCool, hg]

/-- One guild's result depends on the shared cooldown map only through the
guild's own entry. -/
theorem guildIter_result_congr (now : Nat) (cool cool2 : Cooldown)
    (row : GuildRow) (env : GuildEnv)
    (h : cool row.guildId = cool2 row.guildId) :
    (guildIter now cool row env).2 = (guildIter now cool2 row env).2 := by
  unfold guildIter
  rw [h]
  split_ifs <;> rfl

/-- Pointwise agreement of cooldown maps is preserved through one guild's
iteration. -/
theorem guildIter_cool_congr (now : Nat) (cool cool2 : Cooldown)
    (row : GuildRow) (env : GuildEnv)
    (h : cool row.guildId = cool2 row.guildId) (g : Nat)
    (hag : cool g = cool2 g) :
    (guildIter now cool row env).1 g = (guildIter now cool2 row env).1 g := by
  unfold guildIter
  rw [h]
  split_ifs <;> try exact hag
  all_goals
    simp only []
    refine coolUpdate_apply_congr (coolUpdate_apply_congr ?_ _) _
    simp [setCool, hag]

/-- Cycle results depend on the incoming cooldown map only through the
participating guilds' own entries. -/
theorem pollCycle_results_congr (now : Nat) :
    ∀ (gs : List (GuildRow × GuildEnv)) (cool cool2 : Cooldown),
    (∀ p ∈ gs, cool p.1.guildId = cool2 p.1.guildId) →
    (pollCycle now cool gs).2 = (pollCycle now cool2 gs).2 := by
  intro gs
  induction gs with
  | nil => intro cool cool2 _; rfl
  | cons p rest ih =>
      intro cool cool2 h
      obtain ⟨row, env⟩ := p
      unfold pollCycle
      simp only [List.cons.injEq]
      constructor
      · exact guildIter_result_congr now cool cool2 row env
          (h (row, env) (List.mem_cons_self _ _))
      · exact ih _ _ (fun q hq =>
          guildIter_cool_congr now cool cool2 row env
            (h (row, env) (List.mem_cons_self _ _))
            q.1.guildId (h q (List.mem_cons_of_mem _ hq)))

/-- C5: one poll cycle is exception-free and per-guild isolated: every
configured guild yields exactly one result; with pairwise-distinct guild
ids each guild's result equals its standalone iteration on the initial
cooldown state, independent of every other guild's behaviour (including
guilds whose sections raise); and a guild whose league section raises has
the error recorded in its own result while its playoff and rollover
sections still run. -/
theorem poll_cycle_guild_isolation (now : Nat) (cool : Cooldown)
    (gs : List (GuildRow × GuildEnv)) :
    (pollCycle now cool gs).2.length = gs.length ∧
    ((gs.map (fun p => p.1.guildId)).Pairwise (· ≠ ·) →
        (pollCycle now cool gs).2 =
          gs.map (fun p => (guildIter now cool p.1 p.2).2)) ∧
    (∀ (row : GuildRow) (env : GuildEnv) (e : FetchErr),
        truthy row.clubId = true → truthy row.platform = true →
        truthy row.channelId = true → row.autopost = 1 →
        ¬ now < cool row.guildId →
        leagueStep row env.league = .error e →
        (guildIter now cool row env).2.leagueErr = some e ∧
        (guildIter now cool row env).2.playoffOut =
          (playoffStep row env.playoff).toOption) := by
  refine ⟨?_, ?_, ?_⟩
  · induction gs generalizing cool with
    | nil => rfl
    | cons p rest ih =>
        unfold pollCycle
        simpa using ih _
  · induction gs generalizing cool with
    | nil => intro _; rfl
    | cons p rest ih =>
        intro hdist
        obtain ⟨row, env⟩ := p
        simp only [List.map_cons, List.pairwise_cons, List.mem_map] at hdist
        unfold pollCycle
        simp only [List.cons.injEq, List.map_cons]
        constructor
        · first | rfl | trivial
        have hagree : ∀ q ∈ rest,
            (guildIter now cool row env).1 q.1.guildId = cool q.1.guildId := by
          intro q hq
          exact guildIter_cool_apply_ne now cool row env q.1.guildId
            (fun habs => (hdist.1 _ ⟨q, hq, rfl⟩) habs.symm)
        calc (pollCycle now (guildIter now cool row env).1 rest).2
            = (pollCycle now cool rest).2 :=
              pollCycle_results_congr now rest _ cool hagree
          _ = rest.map (fun p => (guildIter now cool p.1 p.2).2) := ih cool hdist.2
  · intro row env e h1 h2 h3 h4 h5 hL
    unfold guildIter
    rw [if_neg (by simp [h1, h2, h3]), if_neg (by simp [h4]), if_neg h5]
    cases e <;> simp [hL]

/-- A guild whose league fetch always raises a generic upstream error. -/
def c5row1 : GuildRow :=
  { guildId := 1, clubId := .nat 11, platform := .str "common-gen5",
    channelId := .nat 91, lastMatchId := Option.none, autopost := 1 }

/-- The throwing guild's environment: `fetch_club_info` raises. -/
def c5env1 : GuildEnv :=
  { league := { clubInfo := .error .generic, latest := .ok Option.none,
                channelOk := true, embedOk := true, sendOk := true,
                cursorWriteOk := true },
    playoff := { settings := some Option.none, latestPlayoff := Option.none,
                 poChannelOk := true, poClubInfo := .ok (.dict [], "common-gen5"),
                 poEmbedOk := true, poSendOk := true, poCursorWriteOk := true },
    rollover := .ok () }

/-- A healthy second guild. -/
def c5row2 : GuildRow :=
  { guildId := 2, clubId := .nat 10, platform := .str "common-gen5",
    channelId := .nat 99, lastMatchId := Option.none, autopost := 1 }

/-- The healthy guild's environment. -/
def c5env2 : GuildEnv :=
  { league := wLenv, playoff := wPenv, rollover := .ok () }

/-- Witness for C5: in a two-guild cycle where guild 1's league section
raises, both guilds yield their standalone results, and guild 1's error is
recorded in its own result while guild 2 still posts its new match. -/
theorem poll_cycle_guild_isolation_witness :
    (pollCycle 1000 (fun _ => 0) [(c5row1, c5env1), (c5row2, c5env2)]).2 =
      [(guildIter 1000 (fun _ => 0) c5row1 c5env1).2,
       (guildIter 1000 (fun _ => 0) c5row2 c5env2).2] ∧
    (guildIter 1000 (fun _ => 0) c5row1 c5env1).2.leagueErr =
      some FetchErr.generic := by
  have h := poll_cycle_guild_isolation 1000 (fun _ => 0)
    [(c5row1, c5env1), (c5row2, c5env2)]
  refine ⟨h.2.1 (by simp [c5row1, c5row2]), ?_⟩
  exact (h.2.2 c5row1 c5env1 .generic (by decide) (by decide) (by decide)
    (by decide) (by decide) rfl).1

end ProClubs
